import Mathlib

/-!
# Tomahawk audio core: `MediaStream` and `AudioOutput`

A shallow embedding of `src/libtomahawk/utils/MediaStream.cpp` and
`src/libtomahawk/audio/AudioOutput.cpp`.

`MediaStream.cpp` carries unresolved merge markers; the embedding follows the
`upstream/libvlc` side of every conflict (the side that declares `m_started`,
`m_bufferingFinished` and the `IODevice` kind).

Conventions
* `qint64` / `int64_t` values are `Int`, `size_t` / `uint64_t` values are `Nat`;
  a conversion between them is written out with `toInt64` / `toUInt64`.
* a `qreal` is a `double`; a finite `double` is the rational it stands for, and
  `double` arithmetic and the conversion of a `double` to `int` are written out
  with `roundDouble`, `doubleMul` and `doubleToInt`.
* a pointer is an `Option Nat` (`none` is `nullptr`).
* calls into collaborators (the byte source, libvlc, Qt signals) are recorded
  in the value a function returns.
-/

namespace Tomahawk

/-! ## Machine integers -/

/-- Conversion of an integer value to `int64_t` (two's complement wrap-around),
as done by `static_cast< int64_t >` and by assigning a `size_t` to a `qint64`. -/
def toInt64 (n : Int) : Int :=
  (n + 2 ^ 63) % 2 ^ 64 - 2 ^ 63

/-- Conversion of an integer value to `size_t` / `uint64_t`. -/
def toUInt64 (n : Int) : Nat :=
  (n % 2 ^ 64).toNat

/-- The constant `#define BLOCK_SIZE 1048576`. -/
def BLOCK_SIZE : Nat := 1048576

/-! ## Floating point -/

/-- Number of halvings that bring `n` below 2, at most `fuel` of them; with
`fuel = n` this is the position of the leading binary digit of `n`. -/
def log2Aux : Nat → Nat → Nat
  | 0, _ => 0
  | fuel + 1, n => if 2 ≤ n then log2Aux fuel (n / 2) + 1 else 0

/-- The integer `e` with `2 ^ e <= n / d < 2 ^ (e + 1)`, for positive `n` and
`d`: the binary exponent of the fraction `n / d`. -/
def floorLog2 (n d : Nat) : Int :=
  let e0 : Int := (log2Aux n n : Int) - (log2Aux d d : Int)
  if (if 0 ≤ e0 then d * 2 ^ e0.toNat ≤ n else d ≤ n * 2 ^ (-e0).toNat) then e0 else e0 - 1

/-- The integer nearest to `n / d`, the even one when `n / d` lies half way
between two integers. -/
def roundHalfEven (n d : Nat) : Nat :=
  let f := n / d
  let r := n % d
  if 2 * r < d then f else if d < 2 * r then f + 1 else if f % 2 = 0 then f else f + 1

/-- The `double` (IEEE 754 binary64, round to nearest, ties to even) nearest to
the rational `x`: 53 significant binary digits, or a multiple of `2 ^ -1074`
for a subnormal. It is the finite result, so it stands for the `double` as long
as its magnitude is below `2 ^ 1024`. -/
def roundDouble (x : ℚ) : ℚ :=
  if x = 0 then 0
  else
    let n : Nat := x.num.natAbs
    let d : Nat := x.den
    let e : Int := floorLog2 n d
    -- exponent of the unit in the last place
    let q : Int := max (e - 52) (-1074)
    let m : Nat :=
      if 0 ≤ q then roundHalfEven n (d * 2 ^ q.toNat) else roundHalfEven (n * 2 ^ (-q).toNat) d
    let a : ℚ := if 0 ≤ q then (m : ℚ) * 2 ^ q.toNat else (m : ℚ) / 2 ^ (-q).toNat
    if x < 0 then -a else a

/-- The product `a * b` of two finite `double`s: the exact product, rounded. -/
def doubleMul (a b : ℚ) : ℚ :=
  roundDouble (a * b)

/-- The implicit conversion of a `double` to `int` at a call: the fractional
part is discarded (truncation towards zero). C++ defines it only for a value
whose integer part fits an `int`; volumes in [0, 1] give 0 to 100. -/
def doubleToInt (x : ℚ) : Int :=
  if 0 ≤ x then ((x.num.natAbs / x.den : Nat) : Int) else -((x.num.natAbs / x.den : Nat) : Int)

/-! ## MediaStream -/

/-- The enum `MediaStream::MediaType`; `IODevice` is the kind the
`upstream/libvlc` side of `MediaStream.cpp` uses next to `Stream`. -/
inductive MediaType where
  | Unknown
  | Empty
  | Url
  | Stream
  | IODevice
  deriving DecidableEq, Repr

/-- The parts of a `QUrl` that `AudioOutput::setCurrentSource` looks at. -/
structure QUrl where
  scheme : String
  isRelative : Bool
  toEncoded : String
  deriving DecidableEq, Repr

/-- The data members of `MediaStream`. The byte source `m_ioDevice` and the
scratch buffer `m_buffer` are external: what is read from or sent to them is an
argument or a recorded call of the callbacks below. -/
structure MediaStream where
  m_type : MediaType
  m_url : QUrl
  m_started : Bool
  m_bufferingFinished : Bool
  m_eos : Bool
  m_pos : Int
  m_streamSize : Int
  deriving DecidableEq, Repr

/-- The constructor `MediaStream::MediaStream( QIODevice* device )`. -/
def MediaStream.ofIODevice : MediaStream :=
  { m_type := MediaType.IODevice, m_url := ⟨"", true, ""⟩, m_started := false,
    m_bufferingFinished := false, m_eos := false, m_pos := 0, m_streamSize := 0 }

/-- The method `MediaStream::setStreamSize`. -/
def MediaStream.setStreamSize (that : MediaStream) (size : Int) : MediaStream :=
  { that with m_streamSize := size }

/-- The method `MediaStream::streamSize`. -/
def MediaStream.streamSize (that : MediaStream) : Int :=
  that.m_streamSize

/-- The method `MediaStream::endOfData`. -/
def MediaStream.endOfData (that : MediaStream) : MediaStream :=
  { that with m_eos := true }

/-- The slot `MediaStream::bufferingFinished`. -/
def MediaStream.bufferingFinished (that : MediaStream) : MediaStream :=
  { that with m_bufferingFinished := true }

/-- What `MediaStream::readCallback` hands back: the returned status, the value
left in `*bufferSize`, and the stream afterwards. -/
structure ReadResult where
  status : Int
  bufferSize : Nat
  that : MediaStream
  deriving DecidableEq, Repr

/-- The static method `MediaStream::readCallback`.
`needData` is the `size_t` the virtual `needData( buffer )` returns and `ioRead`
the `qint64` that `m_ioDevice->read( m_buffer, BLOCK_SIZE )` returns; only the
one that belongs to the kind of the stream is consulted. -/
def MediaStream.readCallback (that : MediaStream) (needData : Nat) (ioRead : Int) :
    ReadResult :=
  -- qint64 bufsize = 0; *bufferSize = 0;
  if that.m_eos = true then
    { status := -1, bufferSize := 0, that := that }
  else
    let bufsize : Int :=
      if that.m_type = MediaType.Stream then toInt64 (needData : Int)
      else if that.m_type = MediaType.IODevice then ioRead
      else 0
    let that1 : MediaStream :=
      if bufsize > 0 then { that with m_started := true } else that
    if that1.m_type = MediaType.IODevice ∧ bufsize = 0 ∧ that1.m_started = true
        ∧ that1.m_bufferingFinished = true then
      { status := -1, bufferSize := 0, that := { that1 with m_eos := true } }
    else if bufsize < 0 then
      { status := -1, bufferSize := 0, that := { that1 with m_eos := true } }
    else
      { status := 0, bufferSize := toUInt64 bufsize, that := that1 }

/-- What `MediaStream::readDoneCallback` hands back: the returned status, the
stream afterwards, and whether `buffer` was deleted. -/
structure ReadDoneResult where
  status : Int
  that : MediaStream
  deleted : Bool
  deriving DecidableEq, Repr

/-- The static method `MediaStream::readDoneCallback`; `buffer` is the pointer
value (`0` is the null pointer). -/
def MediaStream.readDoneCallback (that : MediaStream) (bufferSize : Nat) (buffer : Nat) :
    ReadDoneResult :=
  if that.m_type = MediaType.Stream ∧ buffer ≠ 0 ∧ bufferSize > 0 then
    { status := 0, that := that, deleted := true }
  else
    { status := 0, that := that, deleted := false }

/-- What `MediaStream::seekCallback` hands back: the returned status, the stream
afterwards, and the argument of `m_ioDevice->seek` when that call was made. -/
structure SeekResult where
  status : Int
  that : MediaStream
  deviceSeek : Option Int
  deriving DecidableEq, Repr

/-- The static method `MediaStream::seekCallback`; `pos` is the `uint64_t`
argument. -/
def MediaStream.seekCallback (that : MediaStream) (pos : Nat) : SeekResult :=
  if that.m_type = MediaType.Stream ∧ toInt64 (pos : Int) > that.streamSize then
    { status := -1, that := that, deviceSeek := none }
  else
    let that1 : MediaStream := { that with m_started := false, m_pos := toInt64 (pos : Int) }
    if that1.m_type = MediaType.IODevice then
      { status := 0, that := that1, deviceSeek := some (toInt64 (pos : Int)) }
    else
      { status := 0, that := that1, deviceSeek := none }

/-- One call on a `MediaStream`, with what the environment supplies to it. -/
inductive StreamOp where
  | read (needData : Nat) (ioRead : Int)
  | readDone (bufferSize : Nat) (buffer : Nat)
  | seek (pos : Nat)
  | setStreamSize (size : Int)
  | bufferingFinished
  deriving DecidableEq, Repr

/-- Applies one call; a read also yields its status and reported size. -/
def StreamOp.apply (that : MediaStream) : StreamOp → MediaStream × Option (Int × Nat)
  | StreamOp.read needData ioRead =>
      let r := that.readCallback needData ioRead
      (r.that, some (r.status, r.bufferSize))
  | StreamOp.readDone bufferSize buffer => ((that.readDoneCallback bufferSize buffer).that, none)
  | StreamOp.seek pos => ((that.seekCallback pos).that, none)
  | StreamOp.setStreamSize size => (that.setStreamSize size, none)
  | StreamOp.bufferingFinished => (that.bufferingFinished, none)

/-- Applies a sequence of calls from left to right and collects, in order, the
status and reported size of every read in it. -/
def runStream (that : MediaStream) : List StreamOp → MediaStream × List (Int × Nat)
  | [] => (that, [])
  | op :: ops =>
      let r := op.apply that
      let rest := runStream r.1 ops
      (rest.1, r.2.toList ++ rest.2)

/-- Whether a call is a read. -/
def StreamOp.isRead : StreamOp → Bool
  | StreamOp.read _ _ => true
  | _ => false

/-! ## AudioOutput -/

/-- The enum `AudioOutput::AudioState`. -/
inductive AudioState where
  | Stopped
  | Playing
  | Paused
  | Error
  | Loading
  | Buffering
  deriving DecidableEq, Repr

/-- A pointer to a libvlc object or to a stream; `none` is `nullptr`. -/
abbrev Handle := Option Nat

/-- The constant `ABOUT_TO_FINISH_TIME`. -/
def ABOUT_TO_FINISH_TIME : Int := 2000

/-- The libvlc event types that `AudioOutput.cpp` names. -/
inductive EventType where
  | MediaPlayerMediaChanged
  | MediaPlayerNothingSpecial
  | MediaPlayerOpening
  | MediaPlayerBuffering
  | MediaPlayerPlaying
  | MediaPlayerPaused
  | MediaPlayerStopped
  | MediaPlayerForward
  | MediaPlayerBackward
  | MediaPlayerEndReached
  | MediaPlayerEncounteredError
  | MediaPlayerTimeChanged
  | MediaPlayerPositionChanged
  | MediaPlayerSeekableChanged
  | MediaPlayerPausableChanged
  | MediaPlayerTitleChanged
  | MediaPlayerSnapshotTaken
  | MediaPlayerLengthChanged
  | MediaPlayerVout
  | MediaDurationChanged
  deriving DecidableEq, Repr

/-- The parts of a `libvlc_event_t` that `vlcEventCallback` reads: the type,
`u.media_player_time_changed.new_time` and `u.media_duration_changed.new_duration`. -/
structure VlcEvent where
  type : EventType
  new_time : Int
  new_duration : Int
  deriving DecidableEq, Repr

/-- The five trusted media options `setCurrentSource` attaches to an in-process
source: `imem-cat=4`, `imem-data=` with the address of the stream, and
`imem-get=`, `imem-release=`, `imem-seek=` with the addresses of the three
`MediaStream` callbacks. -/
inductive ImemOption where
  | cat4
  | data (stream : Nat)
  | get
  | release
  | seek
  deriving DecidableEq, Repr

/-- What an `AudioOutput` method does to the outside, in the order it does it:
the Qt signals it emits and the libvlc calls it makes.
`libvlc_audio_set_volume` records the `int` the call receives. -/
inductive Effect where
  | stateChanged (state last : AudioState)
  | tick (time : Int)
  | aboutToFinish
  | deleteStream (stream : Handle)
  | libvlc_media_player_stop (player : Handle)
  | libvlc_media_player_release (player : Handle)
  | libvlc_media_release (media : Handle)
  | libvlc_release (inst : Handle)
  | libvlc_media_player_is_playing (player : Handle)
  | libvlc_media_player_set_pause (player : Handle) (doPause : Int)
  | libvlc_media_player_play (player : Handle)
  | libvlc_media_player_set_time (player : Handle) (time : Int)
  | libvlc_audio_set_volume (player : Handle) (volume : Int)
  | libvlc_new (result : Handle)
  | libvlc_media_player_new (inst : Handle) (result : Handle)
  | libvlc_media_player_event_manager (player : Handle)
  | libvlc_media_event_manager (media : Handle)
  | libvlc_event_attach (owner : Handle) (event : EventType)
  | libvlc_media_new_location (inst : Handle) (url : String) (result : Handle)
  | libvlc_media_player_set_media (player media : Handle)
  | libvlc_media_get_duration (media : Handle)
  | libvlc_media_add_option_flag (media : Handle) (option : ImemOption)
  deriving DecidableEq

/-- The data members of `AudioOutput` (the DSP callback apart). -/
structure AudioOutput where
  currentState : AudioState
  currentStream : Handle
  seekable : Bool
  muted : Bool
  m_autoDelete : Bool
  m_volume : ℚ
  m_currentTime : Int
  m_totalTime : Int
  m_aboutToFinish : Bool
  m_justSeeked : Bool
  vlcInstance : Handle
  vlcPlayer : Handle
  vlcMedia : Handle
  deriving DecidableEq

/-- The data members as the constructor `AudioOutput::AudioOutput` leaves them;
`inst` is what `libvlc_new` returned and `player` what `libvlc_media_player_new`
returned. -/
def AudioOutput.construct (inst player : Handle) : AudioOutput :=
  { currentState := AudioState.Stopped, currentStream := none, seekable := true,
    muted := false, m_autoDelete := true, m_volume := 1, m_currentTime := 0,
    m_totalTime := 0, m_aboutToFinish := false, m_justSeeked := false,
    vlcInstance := inst, vlcPlayer := player, vlcMedia := none }

/-- The method `AudioOutput::setState`. -/
def AudioOutput.setState (self : AudioOutput) (state : AudioState) :
    AudioOutput × List Effect :=
  let last := self.currentState
  ({ self with currentState := state }, [Effect.stateChanged state last])

/-- The method `AudioOutput::setCurrentTime`. `currentTrackTotalTime` is what
`AudioEngine::instance()->currentTrackTotalTime()` answers. -/
def AudioOutput.setCurrentTime (self : AudioOutput) (currentTrackTotalTime : Int)
    (time : Int) : AudioOutput × List Effect :=
  let s1 : AudioOutput :=
    if self.m_totalTime = 0 then
      { self with m_totalTime := currentTrackTotalTime, seekable := true }
    else self
  let s2 : AudioOutput := { s1 with m_currentTime := time }
  -- emit tick( time )
  let total : Int := if s2.m_totalTime ≤ 0 then currentTrackTotalTime else s2.m_totalTime
  let s3 : AudioOutput :=
    if time < total - ABOUT_TO_FINISH_TIME then { s2 with m_aboutToFinish := false } else s2
  if s3.m_aboutToFinish = false ∧ total > 0 ∧ time ≥ total - ABOUT_TO_FINISH_TIME then
    ({ s3 with m_aboutToFinish := true }, [Effect.tick time, Effect.aboutToFinish])
  else
    (s3, [Effect.tick time])

/-- The method `AudioOutput::setTotalTime`. -/
def AudioOutput.setTotalTime (self : AudioOutput) (time : Int) : AudioOutput × List Effect :=
  if time ≤ 0 then
    ({ self with seekable := false }, [])
  else
    ({ self with m_totalTime := time, seekable := true }, [Effect.tick time])

/-- The method `AudioOutput::seek`. -/
def AudioOutput.seek (self : AudioOutput) (currentTrackTotalTime : Int) (milliseconds : Int) :
    AudioOutput × List Effect :=
  match self.currentState with
  | AudioState.Playing | AudioState.Paused | AudioState.Loading | AudioState.Buffering =>
      let s1 : AudioOutput := { self with m_justSeeked := true }
      let r := s1.setCurrentTime currentTrackTotalTime milliseconds
      (r.1, Effect.libvlc_media_player_set_time s1.vlcPlayer milliseconds :: r.2)
  | _ => (self, [])

/-- The method `AudioOutput::isSeekable`. -/
def AudioOutput.isSeekable (self : AudioOutput) : Bool :=
  self.seekable

/-- The method `AudioOutput::setMuted`. The argument `m_volume * 100.0` is a
`double` product, converted to the `int` parameter of
`libvlc_audio_set_volume`. -/
def AudioOutput.setMuted (self : AudioOutput) (m : Bool) : AudioOutput × List Effect :=
  let s1 : AudioOutput := { self with muted := m }
  if s1.muted = true then
    (s1, [Effect.libvlc_audio_set_volume s1.vlcPlayer 0])
  else
    (s1,
      [Effect.libvlc_audio_set_volume s1.vlcPlayer (doubleToInt (doubleMul s1.m_volume 100))])

/-- The method `AudioOutput::volume`. -/
def AudioOutput.volume (self : AudioOutput) : ℚ :=
  if self.muted then 0 else self.m_volume

/-- The method `AudioOutput::setVolume`; `vol` is the `qreal` argument. The
argument `m_volume * 100.0` of the libvlc call is a `double` product, converted
to the `int` parameter of `libvlc_audio_set_volume`. -/
def AudioOutput.setVolume (self : AudioOutput) (vol : ℚ) : AudioOutput × List Effect :=
  let s1 : AudioOutput := { self with m_volume := vol }
  if s1.muted = false then
    (s1,
      [Effect.libvlc_audio_set_volume s1.vlcPlayer (doubleToInt (doubleMul s1.m_volume 100))])
  else
    (s1, [])

/-- A run of `setCurrentTime` calls, each given as the pair of the collaborator's
answer and the time; yields the final state and what each call did. -/
def runSetCurrentTime (self : AudioOutput) : List (Int × Int) → AudioOutput × List (List Effect)
  | [] => (self, [])
  | c :: cs =>
      let r := self.setCurrentTime c.1 c.2
      let rest := runSetCurrentTime r.1 cs
      (rest.1, r.2 :: rest.2)

/-- The event types the constructor subscribes the player to, in the order of
its `events[]` array. -/
def playerEvents : List EventType :=
  [EventType.MediaPlayerMediaChanged, EventType.MediaPlayerNothingSpecial,
    EventType.MediaPlayerOpening, EventType.MediaPlayerBuffering,
    EventType.MediaPlayerPlaying, EventType.MediaPlayerPaused,
    EventType.MediaPlayerStopped, EventType.MediaPlayerForward,
    EventType.MediaPlayerBackward, EventType.MediaPlayerEndReached,
    EventType.MediaPlayerEncounteredError, EventType.MediaPlayerTimeChanged,
    EventType.MediaPlayerPositionChanged, EventType.MediaPlayerSeekableChanged,
    EventType.MediaPlayerPausableChanged, EventType.MediaPlayerTitleChanged,
    EventType.MediaPlayerSnapshotTaken, EventType.MediaPlayerVout]

/-- The constructor `AudioOutput::AudioOutput` with the libvlc calls it makes;
`inst` is what `libvlc_new` returns and `player` what `libvlc_media_player_new`
returns. -/
def AudioOutput.create (inst player : Handle) : AudioOutput × List Effect :=
  let s0 : AudioOutput := AudioOutput.construct none none
  -- vlcInstance = libvlc_new( ... ); if ( !vlcInstance ) only logs
  let s1 : AudioOutput := { s0 with vlcInstance := inst }
  let s2 : AudioOutput := { s1 with vlcPlayer := player }
  (s2,
    [Effect.libvlc_new inst, Effect.libvlc_media_player_new s1.vlcInstance player,
        Effect.libvlc_media_player_event_manager s2.vlcPlayer] ++
      playerEvents.map (fun e => Effect.libvlc_event_attach s2.vlcPlayer e))

/-- The destructor `AudioOutput::~AudioOutput`. -/
def AudioOutput.destroy (self : AudioOutput) : AudioOutput × List Effect :=
  let r1 : AudioOutput × List Effect :=
    if self.vlcPlayer ≠ none then
      ({ self with vlcPlayer := none },
        [Effect.libvlc_media_player_stop self.vlcPlayer,
          Effect.libvlc_media_player_release self.vlcPlayer])
    else (self, [])
  let r2 : AudioOutput × List Effect :=
    if r1.1.vlcMedia ≠ none then
      ({ r1.1 with vlcMedia := none }, [Effect.libvlc_media_release r1.1.vlcMedia])
    else (r1.1, [])
  let e3 : List Effect :=
    if r2.1.vlcInstance ≠ none then [Effect.libvlc_release r2.1.vlcInstance] else []
  (r2.1, r1.2 ++ r2.2 ++ e3)

/-- The method `AudioOutput::setAutoDelete`. -/
def AudioOutput.setAutoDelete (self : AudioOutput) (ad : Bool) : AudioOutput :=
  { self with m_autoDelete := ad }

/-- The location string `setCurrentSource` builds in its `switch` over the kind
of the stream; `cwd` is `QFile::encodeName( QDir::currentPath() )`. -/
def locationToken (cwd : String) (stream : MediaStream) : String :=
  match stream.m_type with
  | MediaType.Unknown => ""
  | MediaType.Empty => ""
  | MediaType.Url =>
      let url0 : String :=
        if stream.m_url.scheme.isEmpty then
          if stream.m_url.isRelative then "file:///" ++ (cwd ++ "/") else "file:///"
        else ""
      url0 ++ stream.m_url.toEncoded
  | MediaType.Stream => "imem://"
  | MediaType.IODevice => "imem://"

/-- The method `AudioOutput::setCurrentSource( MediaStream* stream )`.
`streamPtr` is the address in `stream` and `stream` the object there (the
pointer is dereferenced, so it is not null); `cwd` is the encoded current
directory, `newMedia` what `libvlc_media_new_location` returns and `duration`
what `libvlc_media_get_duration` returns. -/
def AudioOutput.setCurrentSource (self : AudioOutput) (cwd : String) (streamPtr : Nat)
    (stream : MediaStream) (newMedia : Handle) (duration : Int) :
    AudioOutput × List Effect :=
  let r0 := self.setState AudioState.Loading
  let r1 : AudioOutput × List Effect :=
    if r0.1.vlcMedia ≠ none then
      ({ r0.1 with vlcMedia := none },
        [Effect.libvlc_media_player_stop r0.1.vlcPlayer,
          Effect.libvlc_media_release r0.1.vlcMedia])
    else (r0.1, [])
  let e2 : List Effect :=
    if r1.1.m_autoDelete = true ∧ r1.1.currentStream ≠ none then
      [Effect.deleteStream r1.1.currentStream]
    else []
  let s2 : AudioOutput :=
    { r1.1 with currentStream := some streamPtr, m_totalTime := 0, m_currentTime := 0,
                m_justSeeked := false, seekable := true }
  let url : String := locationToken cwd stream
  let s3 : AudioOutput := { s2 with vlcMedia := newMedia }
  let e3 : List Effect :=
    [Effect.libvlc_media_new_location s2.vlcInstance url newMedia,
      Effect.libvlc_media_event_manager s3.vlcMedia,
      Effect.libvlc_event_attach s3.vlcMedia EventType.MediaDurationChanged,
      Effect.libvlc_media_player_set_media s3.vlcPlayer s3.vlcMedia]
  let r4 : AudioOutput × List Effect :=
    if stream.m_type = MediaType.Url then
      ({ s3 with m_totalTime := duration }, [Effect.libvlc_media_get_duration s3.vlcMedia])
    else if stream.m_type = MediaType.Stream ∨ stream.m_type = MediaType.IODevice then
      (s3,
        [Effect.libvlc_media_add_option_flag s3.vlcMedia ImemOption.cat4,
          Effect.libvlc_media_add_option_flag s3.vlcMedia (ImemOption.data streamPtr),
          Effect.libvlc_media_add_option_flag s3.vlcMedia ImemOption.get,
          Effect.libvlc_media_add_option_flag s3.vlcMedia ImemOption.release,
          Effect.libvlc_media_add_option_flag s3.vlcMedia ImemOption.seek])
    else (s3, [])
  let s5 : AudioOutput := { r4.1 with m_aboutToFinish := false }
  let r6 := s5.setState AudioState.Stopped
  (r6.1, r0.2 ++ r1.2 ++ e2 ++ e3 ++ r4.2 ++ r6.2)

/-- The method `AudioOutput::play`; `isPlaying` is what
`libvlc_media_player_is_playing` answers. -/
def AudioOutput.play (self : AudioOutput) (isPlaying : Bool) : AudioOutput × List Effect :=
  let e : List Effect :=
    if isPlaying then
      [Effect.libvlc_media_player_is_playing self.vlcPlayer,
        Effect.libvlc_media_player_set_pause self.vlcPlayer 0]
    else
      [Effect.libvlc_media_player_is_playing self.vlcPlayer,
        Effect.libvlc_media_player_play self.vlcPlayer]
  let r := self.setState AudioState.Playing
  (r.1, e ++ r.2)

/-- The method `AudioOutput::pause`. -/
def AudioOutput.pause (self : AudioOutput) : AudioOutput × List Effect :=
  let r := self.setState AudioState.Paused
  (r.1, Effect.libvlc_media_player_set_pause self.vlcPlayer 1 :: r.2)

/-- The method `AudioOutput::stop`. -/
def AudioOutput.stop (self : AudioOutput) : AudioOutput × List Effect :=
  let r := self.setState AudioState.Stopped
  (r.1, Effect.libvlc_media_player_stop self.vlcPlayer :: r.2)

/-- The static method `AudioOutput::vlcEventCallback`, with `that` the object
in `opaque`; `currentTrackTotalTime` is the collaborator's answer should
`setCurrentTime` ask. -/
def AudioOutput.vlcEventCallback (that : AudioOutput) (currentTrackTotalTime : Int)
    (event : VlcEvent) : AudioOutput × List Effect :=
  match event.type with
  | EventType.MediaPlayerTimeChanged => that.setCurrentTime currentTrackTotalTime event.new_time
  | EventType.MediaDurationChanged => that.setTotalTime event.new_duration
  | EventType.MediaPlayerEndReached => that.setState AudioState.Stopped
  | EventType.MediaPlayerEncounteredError =>
      let r1 : AudioOutput × List Effect := if that.vlcPlayer ≠ none then that.stop else (that, [])
      let r2 := r1.1.setState AudioState.Error
      (r2.1, r1.2 ++ r2.2)
  | _ => (that, [])

/-- One `setCurrentSource` call with what the environment supplies to it. -/
structure SourceCall where
  cwd : String
  streamPtr : Nat
  stream : MediaStream
  newMedia : Handle
  duration : Int
  deriving DecidableEq

/-- One call on an `AudioOutput`, with what the environment supplies to it. -/
inductive AudioOp where
  | setCurrentSource (c : SourceCall)
  | play (isPlaying : Bool)
  | pause
  | stop
  | seek (currentTrackTotalTime : Int) (milliseconds : Int)
  | setCurrentTime (currentTrackTotalTime : Int) (time : Int)
  | setTotalTime (time : Int)
  | setVolume (vol : ℚ)
  | setMuted (m : Bool)
  | vlcEvent (currentTrackTotalTime : Int) (event : VlcEvent)
  deriving DecidableEq

/-- Applies one call. -/
def AudioOp.apply (self : AudioOutput) : AudioOp → AudioOutput × List Effect
  | AudioOp.setCurrentSource c =>
      self.setCurrentSource c.cwd c.streamPtr c.stream c.newMedia c.duration
  | AudioOp.play isPlaying => self.play isPlaying
  | AudioOp.pause => self.pause
  | AudioOp.stop => self.stop
  | AudioOp.seek currentTrackTotalTime milliseconds =>
      self.seek currentTrackTotalTime milliseconds
  | AudioOp.setCurrentTime currentTrackTotalTime time =>
      self.setCurrentTime currentTrackTotalTime time
  | AudioOp.setTotalTime time => self.setTotalTime time
  | AudioOp.setVolume vol => self.setVolume vol
  | AudioOp.setMuted m => self.setMuted m
  | AudioOp.vlcEvent currentTrackTotalTime event =>
      self.vlcEventCallback currentTrackTotalTime event

/-- Applies a sequence of calls from left to right; yields the final state and
what each call did. -/
def runAudio (self : AudioOutput) : List AudioOp → AudioOutput × List (List Effect)
  | [] => (self, [])
  | op :: ops =>
      let r := op.apply self
      let rest := runAudio r.1 ops
      (rest.1, r.2 :: rest.2)

/-- Whether a call assigns the playback state a value other than Error as its
last state change: `setCurrentSource`, `play`, `pause`, `stop` and the
end-reached event. -/
def AudioOp.leavesError : AudioOp → Bool
  | AudioOp.setCurrentSource _ => true
  | AudioOp.play _ => true
  | AudioOp.pause => true
  | AudioOp.stop => true
  | AudioOp.vlcEvent _ event => decide (event.type = EventType.MediaPlayerEndReached)
  | _ => false

/-- Whether a call reports a total time that is not positive: `setTotalTime`
with `time <= 0`, directly or through a duration-changed event. -/
def AudioOp.reportsNoDuration : AudioOp → Bool
  | AudioOp.setTotalTime time => decide (time ≤ 0)
  | AudioOp.vlcEvent _ event =>
      decide (event.type = EventType.MediaDurationChanged ∧ event.new_duration ≤ 0)
  | _ => false

/-- The change a call makes to the number of live media handles: a
`libvlc_media_new_location` that returned a handle adds one, a
`libvlc_media_release` of a handle takes one away. -/
def mediaDelta : Effect → Int
  | Effect.libvlc_media_new_location _ _ (some _) => 1
  | Effect.libvlc_media_release (some _) => -1
  | _ => 0

/-- The net number of media handles a trace creates. -/
def liveMedia (trace : List Effect) : Int :=
  (trace.map mediaDelta).sum

/-- What the start of a `setCurrentSource` call does to the previous binding:
stop and release when there is a media handle, then deletion of the previous
stream when auto-delete is on. -/
def teardown (player prevMedia : Handle) (autoDelete : Bool) (prevStream : Handle) :
    List Effect :=
  (if prevMedia ≠ none then
      [Effect.libvlc_media_player_stop player, Effect.libvlc_media_release prevMedia]
    else []) ++
  (if autoDelete = true ∧ prevStream ≠ none then [Effect.deleteStream prevStream] else [])

/-- Checks that, starting with `n` live media handles, the number of live media
handles stays within 0 and 1 before and after every call of a trace. -/
def liveWithin (n : Int) : List Effect → Bool
  | [] => decide (0 ≤ n ∧ n ≤ 1)
  | e :: es => decide (0 ≤ n ∧ n ≤ 1) && liveWithin (n + mediaDelta e) es

/-- Whether an effect is a `stateChanged` signal. -/
def Effect.isStateChanged : Effect → Bool
  | Effect.stateChanged _ _ => true
  | _ => false

/-! ## Theorems: MediaStream -/

lemma toInt64_lt (n : Int) : toInt64 n < 2 ^ 63 := by
  unfold toInt64
  have h := Int.emod_lt_of_pos (n + 2 ^ 63) (show (0 : Int) < 2 ^ 64 by norm_num)
  omega

lemma toInt64_of_lt (n : Int) (h0 : 0 ≤ n) (h1 : n < 2 ^ 63) : toInt64 n = n := by
  unfold toInt64
  rw [Int.emod_eq_of_lt (by omega) (by omega)]
  omega

lemma toUInt64_of_lt (n : Int) (h0 : 0 ≤ n) (h1 : n < 2 ^ 63) : (toUInt64 n : Int) = n := by
  unfold toUInt64
  rw [Int.emod_eq_of_lt h0 (by omega)]
  exact Int.toNat_of_nonneg h0

lemma readCallback_of_eos (that : MediaStream) (needData : Nat) (ioRead : Int)
    (heos : that.m_eos = true) :
    that.readCallback needData ioRead = { status := -1, bufferSize := 0, that := that } := by
  simp [MediaStream.readCallback, heos]

lemma seekCallback_m_eos (that : MediaStream) (pos : Nat) :
    (that.seekCallback pos).that.m_eos = that.m_eos := by
  simp only [MediaStream.seekCallback]
  split_ifs <;> rfl

lemma readDoneCallback_that (that : MediaStream) (bufferSize buffer : Nat) :
    (that.readDoneCallback bufferSize buffer).that = that := by
  unfold MediaStream.readDoneCallback
  split_ifs <;> rfl

lemma apply_of_eos (that : MediaStream) (op : StreamOp) (heos : that.m_eos = true) :
    (op.apply that).1.m_eos = true ∧
      (op.apply that).2.toList = List.replicate (if op.isRead then 1 else 0) ((-1 : Int), 0) := by
  cases op with
  | read needData ioRead =>
      simp [StreamOp.apply, StreamOp.isRead, readCallback_of_eos that needData ioRead heos, heos]
  | readDone bufferSize buffer =>
      simp [StreamOp.apply, StreamOp.isRead, readDoneCallback_that, heos]
  | seek pos =>
      simp [StreamOp.apply, StreamOp.isRead, seekCallback_m_eos, heos]
  | setStreamSize size =>
      simp [StreamOp.apply, StreamOp.isRead, MediaStream.setStreamSize, heos]
  | bufferingFinished =>
      simp [StreamOp.apply, StreamOp.isRead, MediaStream.bufferingFinished, heos]

/-- C1: once `m_eos` is true, it is still true after any finite sequence of
read, readDone, seek, setStreamSize and bufferingFinished calls, and every read
of the sequence returns status -1 and reports 0 bytes. -/
theorem endOfStream_monotonic (that : MediaStream) (ops : List StreamOp)
    (heos : that.m_eos = true) :
    (runStream that ops).1.m_eos = true ∧
      (runStream that ops).2 = List.replicate (ops.countP StreamOp.isRead) ((-1 : Int), 0) := by
  induction ops generalizing that with
  | nil => simp [runStream, heos]
  | cons op ops ih =>
      obtain ⟨h1, h2⟩ := apply_of_eos that op heos
      obtain ⟨h3, h4⟩ := ih (op.apply that).1 h1
      refine ⟨by simpa [runStream] using h3, ?_⟩
      simp only [runStream, h2, h4, List.countP_cons]
      rw [← List.replicate_add]
      congr 1
      split_ifs <;> omega

/-- Witness of C1: an exhausted byte-device stream, read, sought and read again. -/
theorem endOfStream_monotonic_witness :
    (MediaStream.endOfData MediaStream.ofIODevice).m_eos = true ∧
      (runStream (MediaStream.endOfData MediaStream.ofIODevice)
        [StreamOp.read 0 1048576, StreamOp.seek 0, StreamOp.bufferingFinished,
          StreamOp.read 0 7]).1.m_eos = true ∧
      (runStream (MediaStream.endOfData MediaStream.ofIODevice)
        [StreamOp.read 0 1048576, StreamOp.seek 0, StreamOp.bufferingFinished,
          StreamOp.read 0 7]).2 = [((-1 : Int), 0), ((-1 : Int), 0)] :=
  ⟨rfl, (endOfStream_monotonic _ _ rfl).1, by
    simpa [StreamOp.isRead] using (endOfStream_monotonic (MediaStream.endOfData
      MediaStream.ofIODevice) [StreamOp.read 0 1048576, StreamOp.seek 0,
        StreamOp.bufferingFinished, StreamOp.read 0 7] rfl).2⟩

/-- C2: on a byte-device stream that has not ended, a read to which the byte
source gives 0 bytes returns -1 and sets `m_eos` exactly when `m_started` and
`m_bufferingFinished` are both true; otherwise it returns 0, reports size 0 and
leaves `m_eos` false. After two reads of 1048576 bytes and `bufferingFinished`,
a third read of 0 bytes returns -1 and `m_eos` is true. -/
theorem readCallback_zero_read (that : MediaStream) (needData : Nat)
    (heos : that.m_eos = false) (hkind : that.m_type = MediaType.IODevice) :
    (((that.readCallback needData 0).status = -1 ∧
          (that.readCallback needData 0).that.m_eos = true) ↔
        (that.m_started = true ∧ that.m_bufferingFinished = true)) ∧
      (¬ (that.m_started = true ∧ that.m_bufferingFinished = true) →
        (that.readCallback needData 0).status = 0 ∧
          (that.readCallback needData 0).bufferSize = 0 ∧
          (that.readCallback needData 0).that.m_eos = false) ∧
      (runStream that [StreamOp.read needData 1048576, StreamOp.read needData 1048576,
          StreamOp.bufferingFinished, StreamOp.read needData 0]).2 =
        [((0 : Int), 1048576), ((0 : Int), 1048576), ((-1 : Int), 0)] ∧
      (runStream that [StreamOp.read needData 1048576, StreamOp.read needData 1048576,
          StreamOp.bufferingFinished, StreamOp.read needData 0]).1.m_eos = true := by
  refine ⟨?_, ?_, ?_, ?_⟩
  · by_cases h : that.m_started = true ∧ that.m_bufferingFinished = true
    · simp [MediaStream.readCallback, heos, hkind, h.1, h.2]
    · simp [MediaStream.readCallback, heos, hkind, h]
  · intro h
    simp [MediaStream.readCallback, heos, hkind, h, toUInt64]
  · simp [runStream, StreamOp.apply, MediaStream.readCallback, MediaStream.bufferingFinished,
      heos, hkind, toUInt64]
  · simp [runStream, StreamOp.apply, MediaStream.readCallback, MediaStream.bufferingFinished,
      heos, hkind, toUInt64]

/-- Witness of C2: the freshly constructed byte-device stream. -/
theorem readCallback_zero_read_witness :
    (runStream MediaStream.ofIODevice [StreamOp.read 0 1048576, StreamOp.read 0 1048576,
        StreamOp.bufferingFinished, StreamOp.read 0 0]).2 =
      [((0 : Int), 1048576), ((0 : Int), 1048576), ((-1 : Int), 0)] ∧
    (MediaStream.ofIODevice.readCallback 0 0).status = 0 :=
  ⟨(readCallback_zero_read MediaStream.ofIODevice 0 rfl rfl).2.2.1,
    ((readCallback_zero_read MediaStream.ofIODevice 0 rfl rfl).2.1 (by decide)).1⟩

/-- C4, the code at the failing input: a push stream of declared size 100 asked
to seek to position 2^63 (which exceeds 100) returns 0 and stores the position
-2^63. -/
theorem seekCallback_position_wraps :
    ((100 : Int) < ((2 ^ 63 : Nat) : Int)) ∧
      (MediaStream.seekCallback
          { m_type := MediaType.Stream, m_url := ⟨"", true, ""⟩, m_started := true,
            m_bufferingFinished := false, m_eos := false, m_pos := 0, m_streamSize := 100 }
          (2 ^ 63)).status = 0 ∧
      (MediaStream.seekCallback
          { m_type := MediaType.Stream, m_url := ⟨"", true, ""⟩, m_started := true,
            m_bufferingFinished := false, m_eos := false, m_pos := 0, m_streamSize := 100 }
          (2 ^ 63)).that.m_pos = -(2 ^ 63) := by
  refine ⟨by norm_num, ?_, ?_⟩ <;>
    simp [MediaStream.seekCallback, MediaStream.streamSize, toInt64]

/-- Below 2^63 the comparison in `seekCallback` is the comparison of the
integers: a push stream fails the seek exactly when the position exceeds the
declared size. -/
lemma seekCallback_status_of_lt (that : MediaStream) (pos : Nat)
    (hkind : that.m_type = MediaType.Stream) (hpos : pos < 2 ^ 63) :
    ((that.seekCallback pos).status = -1 ↔ that.m_streamSize < (pos : Int)) ∧
      (¬ that.m_streamSize < (pos : Int) → (that.seekCallback pos).status = 0) := by
  have hp : toInt64 (pos : Int) = pos := toInt64_of_lt _ (by omega) (by exact_mod_cast hpos)
  by_cases h : that.m_streamSize < (pos : Int) <;>
    simp [MediaStream.seekCallback, MediaStream.streamSize, hkind, hp, h]

/-- C5: a seek that returns -1 leaves the stream as it was and makes no
`m_ioDevice->seek` call. -/
theorem seekCallback_failed_atomic (that : MediaStream) (pos : Nat)
    (hfail : (that.seekCallback pos).status = -1) :
    (that.seekCallback pos).that = that ∧ (that.seekCallback pos).deviceSeek = none := by
  simp only [MediaStream.seekCallback] at hfail ⊢
  split_ifs at hfail ⊢
  simp_all

/-- Witness of C5: a push stream of size 10 asked to seek to 11. -/
theorem seekCallback_failed_atomic_witness :
    (MediaStream.seekCallback
        { m_type := MediaType.Stream, m_url := ⟨"", true, ""⟩, m_started := true,
          m_bufferingFinished := false, m_eos := false, m_pos := 3, m_streamSize := 10 }
        11).status = -1 ∧
      (MediaStream.seekCallback
        { m_type := MediaType.Stream, m_url := ⟨"", true, ""⟩, m_started := true,
          m_bufferingFinished := false, m_eos := false, m_pos := 3, m_streamSize := 10 }
        11).that.m_started = true :=
  ⟨by decide, by rw [(seekCallback_failed_atomic _ 11 (by decide)).1]⟩

/-- C6: on a push stream or byte-device stream that has not ended, let `n` be
the non-zero result the read obtains from the source (the value of `bufsize`:
the `needData` result stored as `qint64`, or the `qint64` the device read
returns). If `n > 0` the read returns 0, reports `n` bytes, sets `m_started`
and leaves `m_eos` false; if `n < 0` it returns -1, reports 0 bytes and sets
`m_eos`. -/
theorem readCallback_nonzero (that : MediaStream) (needData : Nat) (ioRead n : Int)
    (heos : that.m_eos = false)
    (hsrc : (that.m_type = MediaType.Stream ∧ n = toInt64 (needData : Int)) ∨
      (that.m_type = MediaType.IODevice ∧ n = ioRead ∧ n < 2 ^ 63)) :
    (0 < n →
        (that.readCallback needData ioRead).status = 0 ∧
          ((that.readCallback needData ioRead).bufferSize : Int) = n ∧
          (that.readCallback needData ioRead).that.m_started = true ∧
          (that.readCallback needData ioRead).that.m_eos = false) ∧
      (n < 0 →
        (that.readCallback needData ioRead).status = -1 ∧
          (that.readCallback needData ioRead).bufferSize = 0 ∧
          (that.readCallback needData ioRead).that.m_eos = true) := by
  have hbuf : (if that.m_type = MediaType.Stream then toInt64 (needData : Int)
      else if that.m_type = MediaType.IODevice then ioRead else 0) = n := by
    rcases hsrc with ⟨hk, hn⟩ | ⟨hk, hn, _⟩ <;> simp [hk, hn]
  have hlt : n < 2 ^ 63 := by
    rcases hsrc with ⟨_, hn⟩ | ⟨_, _, hn⟩
    · rw [hn]; exact toInt64_lt _
    · exact hn
  constructor
  · intro hpos
    have hne : ¬ n = 0 := by omega
    have hnn : ¬ n < 0 := by omega
    simp [MediaStream.readCallback, heos, hbuf, hpos, hne, hnn,
      toUInt64_of_lt n (by omega) hlt]
  · intro hneg
    have hne : ¬ n = 0 := by omega
    have hnp : ¬ 0 < n := by omega
    simp [MediaStream.readCallback, heos, hbuf, hneg, hne, hnp]

/-- Witness of C6: the fresh byte-device stream given 5 bytes by its source. -/
theorem readCallback_nonzero_witness :
    (MediaStream.ofIODevice.readCallback 0 5).status = 0 ∧
      ((MediaStream.ofIODevice.readCallback 0 5).bufferSize : Int) = 5 ∧
      (MediaStream.ofIODevice.readCallback 0 5).that.m_started = true ∧
      (MediaStream.ofIODevice.readCallback 0 5).that.m_eos = false :=
  (readCallback_nonzero MediaStream.ofIODevice 0 5 5 rfl
    (Or.inr ⟨rfl, rfl, by norm_num⟩)).1 (by norm_num)

/-! ## Theorems: AudioOutput -/

/-- One `setCurrentTime` call when the stored total time is positive: the total
is kept, the flag afterwards says whether the remaining time is within the
threshold, and the notification goes out exactly on the rising edge. -/
lemma setCurrentTime_of_total_pos (self : AudioOutput) (F t : Int)
    (hT : 0 < self.m_totalTime) :
    (self.setCurrentTime F t).1.m_totalTime = self.m_totalTime ∧
      ((self.setCurrentTime F t).1.m_aboutToFinish = false ↔ self.m_totalTime - t > 2000) ∧
      (self.setCurrentTime F t).2 =
        (if self.m_totalTime - t ≤ 2000 ∧ self.m_aboutToFinish = false
          then [Effect.tick t, Effect.aboutToFinish] else [Effect.tick t]) := by
  have h0 : ¬ self.m_totalTime = 0 := by omega
  have h1 : ¬ self.m_totalTime ≤ 0 := by omega
  simp only [AudioOutput.setCurrentTime, ABOUT_TO_FINISH_TIME, h0, h1, if_false]
  by_cases hlt : t < self.m_totalTime - 2000
  · have h2 : ¬ self.m_totalTime - t ≤ 2000 := by omega
    have h3 : ¬ t ≥ self.m_totalTime - 2000 := by omega
    have h4 : self.m_totalTime - t > 2000 := by omega
    simp [hlt, h2, h3, h4]
  · have h2 : self.m_totalTime - t ≤ 2000 := by omega
    have h3 : t ≥ self.m_totalTime - 2000 := by omega
    have h4 : ¬ self.m_totalTime - t > 2000 := by omega
    cases hb : self.m_aboutToFinish <;> simp [hlt, h2, h3, h4, hb, hT]

lemma runSetCurrentTime_count (self : AudioOutput) (T : Int) (calls : List (Int × Int))
    (hT : 0 < T) (htotal : self.m_totalTime = T) (i : Nat) (hi : i < calls.length) :
    (((runSetCurrentTime self calls).2.getD i []).count Effect.aboutToFinish =
      if T - (calls.getD i (0, 0)).2 ≤ 2000 ∧
          (if i = 0 then self.m_aboutToFinish = false
            else T - (calls.getD (i - 1) (0, 0)).2 > 2000)
        then 1 else 0) := by
  induction calls generalizing self i with
  | nil => simp at hi
  | cons c cs ih =>
      obtain ⟨h1, h2, h3⟩ := setCurrentTime_of_total_pos self c.1 c.2 (by omega)
      cases i with
      | zero =>
          simp only [runSetCurrentTime, List.getD_cons_zero, h3, htotal, if_true]
          split_ifs <;> simp
      | succ j =>
          have hj : j < cs.length := by simpa using hi
          have := ih (self.setCurrentTime c.1 c.2).1 (by rw [h1, htotal]) j hj
          simp only [runSetCurrentTime, List.getD_cons_succ, this]
          cases j with
          | zero => simp [h2, htotal]
          | succ k => simp

/-- C3: with a stored total time `T > 0` and `m_aboutToFinish` false at the
start, in a run of `setCurrentTime` calls with times `t_0, t_1, ...` the
about-to-finish notification is emitted by call `i` exactly once when
`T - t_i <= 2000` and (`i` is the first call or `T - t_(i-1) > 2000`), and not
at all otherwise. -/
theorem aboutToFinish_rising_edge (self : AudioOutput) (T : Int) (calls : List (Int × Int))
    (hT : 0 < T) (htotal : self.m_totalTime = T) (hflag : self.m_aboutToFinish = false)
    (i : Nat) (hi : i < calls.length) :
    ((runSetCurrentTime self calls).2.getD i []).count Effect.aboutToFinish =
      if T - (calls.getD i (0, 0)).2 ≤ 2000 ∧
          (i = 0 ∨ T - (calls.getD (i - 1) (0, 0)).2 > 2000)
        then 1 else 0 := by
  rw [runSetCurrentTime_count self T calls hT htotal i hi]
  cases i with
  | zero => simp [hflag]
  | succ j => simp

/-- Witness of C3: a track of 180000 ms; the times 1000, 178500, 179000, 5000,
179500 make the second call emit the notification once and the third not. -/
theorem aboutToFinish_rising_edge_witness :
    ((runSetCurrentTime { AudioOutput.construct (some 1) (some 2) with m_totalTime := 180000 }
        [(0, 1000), (0, 178500), (0, 179000), (0, 5000), (0, 179500)]).2.getD 1 []).count
        Effect.aboutToFinish = 1 ∧
      ((runSetCurrentTime { AudioOutput.construct (some 1) (some 2) with m_totalTime := 180000 }
        [(0, 1000), (0, 178500), (0, 179000), (0, 5000), (0, 179500)]).2.getD 2 []).count
        Effect.aboutToFinish = 0 := by
  constructor
  · have h := aboutToFinish_rising_edge
      { AudioOutput.construct (some 1) (some 2) with m_totalTime := 180000 } 180000
      [(0, 1000), (0, 178500), (0, 179000), (0, 5000), (0, 179500)]
      (by norm_num) rfl rfl 1 (by simp)
    rw [h]; norm_num
  · have h := aboutToFinish_rising_edge
      { AudioOutput.construct (some 1) (some 2) with m_totalTime := 180000 } 180000
      [(0, 1000), (0, 178500), (0, 179000), (0, 5000), (0, 179500)]
      (by norm_num) rfl rfl 2 (by simp)
    rw [h]; norm_num

/-- What `setCurrentTime` always does: it stores the time, emits the tick
first, and touches neither the playback state nor the just-seeked flag. -/
lemma setCurrentTime_basic (self : AudioOutput) (F t : Int) :
    (self.setCurrentTime F t).1.m_currentTime = t ∧
      (self.setCurrentTime F t).1.currentState = self.currentState ∧
      (self.setCurrentTime F t).1.m_justSeeked = self.m_justSeeked ∧
      ((self.setCurrentTime F t).2 = [Effect.tick t] ∨
        (self.setCurrentTime F t).2 = [Effect.tick t, Effect.aboutToFinish]) := by
  simp only [AudioOutput.setCurrentTime]
  split_ifs <;> simp

/-- C7: `seek` in state Stopped or Error changes nothing in the object, makes
no libvlc call and emits no signal. -/
theorem seek_stopped_or_error (self : AudioOutput) (F ms : Int)
    (hstate : self.currentState = AudioState.Stopped ∨ self.currentState = AudioState.Error) :
    self.seek F ms = (self, []) := by
  rcases hstate with h | h <;> simp [AudioOutput.seek, h]

/-- Witness of C7: the freshly constructed object, which is Stopped. -/
theorem seek_stopped_or_error_witness :
    (AudioOutput.construct (some 1) (some 2)).seek 0 5000 =
      (AudioOutput.construct (some 1) (some 2), []) :=
  seek_stopped_or_error (AudioOutput.construct (some 1) (some 2)) 0 5000 (Or.inl rfl)

/-- C8: `seek( ms )` in state Playing, Paused, Loading or Buffering makes the
libvlc set-time call with `ms` first and once, followed only by the tick and
possibly the about-to-finish signal; it sets `m_justSeeked`, leaves
`m_currentTime = ms` and the playback state as it was, whatever `seekable`
is. -/
theorem seek_active (self : AudioOutput) (F ms : Int)
    (hstate : self.currentState = AudioState.Playing ∨ self.currentState = AudioState.Paused ∨
      self.currentState = AudioState.Loading ∨ self.currentState = AudioState.Buffering) :
    ((self.seek F ms).2 =
          [Effect.libvlc_media_player_set_time self.vlcPlayer ms, Effect.tick ms] ∨
        (self.seek F ms).2 =
          [Effect.libvlc_media_player_set_time self.vlcPlayer ms, Effect.tick ms,
            Effect.aboutToFinish]) ∧
      (self.seek F ms).1.m_justSeeked = true ∧
      (self.seek F ms).1.m_currentTime = ms ∧
      (self.seek F ms).1.currentState = self.currentState := by
  obtain ⟨h1, h2, h3, h4⟩ := setCurrentTime_basic { self with m_justSeeked := true } F ms
  have hseek : self.seek F ms =
      ((({ self with m_justSeeked := true } : AudioOutput).setCurrentTime F ms).1,
        Effect.libvlc_media_player_set_time self.vlcPlayer ms ::
          (({ self with m_justSeeked := true } : AudioOutput).setCurrentTime F ms).2) := by
    rcases hstate with h | h | h | h <;> simp [AudioOutput.seek, h]
  rw [hseek]
  refine ⟨?_, h3, h1, h2⟩
  rcases h4 with h | h <;> simp [h]

/-- Witness of C8: a Playing object that reports itself not seekable. -/
theorem seek_active_witness :
    (AudioOutput.seek { AudioOutput.construct (some 1) (some 2) with
        currentState := AudioState.Playing, seekable := false } 0 5000).1.m_currentTime = 5000 ∧
      (AudioOutput.seek { AudioOutput.construct (some 1) (some 2) with
        currentState := AudioState.Playing, seekable := false } 0 5000).1.m_justSeeked = true :=
  ⟨(seek_active _ 0 5000 (Or.inl rfl)).2.2.1, (seek_active _ 0 5000 (Or.inl rfl)).2.1⟩

/-- C9: `setTotalTime( t )` with `t <= 0` clears `seekable`, keeps
`m_totalTime` and emits nothing; with `t > 0` it stores `t`, sets `seekable`
and emits one tick. `m_currentTime`, `m_aboutToFinish` and the playback state
are the same afterwards in both cases. -/
theorem setTotalTime_cases (self : AudioOutput) (t : Int) :
    (t ≤ 0 →
        (self.setTotalTime t).1.seekable = false ∧
          (self.setTotalTime t).1.m_totalTime = self.m_totalTime ∧
          (self.setTotalTime t).2 = []) ∧
      (0 < t →
        (self.setTotalTime t).1.m_totalTime = t ∧
          (self.setTotalTime t).1.seekable = true ∧
          (self.setTotalTime t).2 = [Effect.tick t]) ∧
      (self.setTotalTime t).1.m_currentTime = self.m_currentTime ∧
      (self.setTotalTime t).1.m_aboutToFinish = self.m_aboutToFinish ∧
      (self.setTotalTime t).1.currentState = self.currentState := by
  by_cases h : t ≤ 0
  · have h' : ¬ 0 < t := by omega
    simp [AudioOutput.setTotalTime, h, h']
  · have h' : 0 < t := by omega
    simp [AudioOutput.setTotalTime, h, h']

/-- Witness of C9: a known total of 180000 ms survives `setTotalTime( 0 )`, and
`setTotalTime( 200000 )` on the fresh object emits one tick. -/
theorem setTotalTime_cases_witness :
    (AudioOutput.setTotalTime { AudioOutput.construct (some 1) (some 2) with
        m_totalTime := 180000 } 0).1.m_totalTime = 180000 ∧
      (AudioOutput.setTotalTime { AudioOutput.construct (some 1) (some 2) with
        m_totalTime := 180000 } 0).1.seekable = false ∧
      ((AudioOutput.construct (some 1) (some 2)).setTotalTime 200000).2 =
        [Effect.tick 200000] :=
  ⟨((setTotalTime_cases _ 0).1 (by norm_num)).2.1, ((setTotalTime_cases _ 0).1 (by norm_num)).1,
    ((setTotalTime_cases _ 200000).2.1 (by norm_num)).2.2⟩

/-- The leading binary digit found by `log2Aux` is not above `n`. -/
lemma log2Aux_le (fuel n : Nat) (hn : 1 ≤ n) : 2 ^ log2Aux fuel n ≤ n := by
  induction fuel generalizing n with
  | zero => simpa [log2Aux] using hn
  | succ k ih =>
      simp only [log2Aux]
      split_ifs with h
      · have h1 := ih (n / 2) (by omega)
        rw [pow_succ]
        omega
      · simpa using hn

/-- With enough fuel `log2Aux` finds the leading binary digit of `n`. -/
lemma lt_log2Aux (fuel n : Nat) (hf : n ≤ fuel) : n < 2 ^ (log2Aux fuel n + 1) := by
  induction fuel generalizing n with
  | zero => simp [log2Aux]; omega
  | succ k ih =>
      simp only [log2Aux]
      split_ifs with h
      · have h1 := ih (n / 2) (by omega)
        rw [pow_succ]
        omega
      · simp; omega

/-- A fraction below `2 ^ (b + 1)` has binary exponent at most `b`. -/
lemma floorLog2_le (n d b : Nat) (hn : 1 ≤ n) (h : n < 2 ^ (b + 1) * d) :
    floorLog2 n d ≤ b := by
  have h1 := log2Aux_le n n hn
  have h2 := lt_log2Aux d d le_rfl
  have h3 : 2 ^ log2Aux n n < 2 ^ (b + 1) * 2 ^ (log2Aux d d + 1) :=
    lt_of_le_of_lt h1 (lt_of_lt_of_le h (Nat.mul_le_mul_left _ h2.le))
  rw [← pow_add] at h3
  have h4 : log2Aux n n < b + 1 + (log2Aux d d + 1) := (Nat.pow_lt_pow_iff_right (by norm_num)).1 h3
  simp only [floorLog2]
  split_ifs with hc1 hc2 hc3
  · -- 0 ≤ e0, d * 2 ^ e0 ≤ n
    have h5 : d * 2 ^ ((log2Aux n n : Int) - (log2Aux d d : Int)).toNat < 2 ^ (b + 1) * d :=
      lt_of_le_of_lt hc2 h
    have hd : 0 < d := by
      rcases Nat.eq_zero_or_pos d with h0 | h0
      · simp [h0] at h
      · exact h0
    have h6 : 2 ^ ((log2Aux n n : Int) - (log2Aux d d : Int)).toNat < 2 ^ (b + 1) := by
      rw [mul_comm] at h5
      exact Nat.lt_of_mul_lt_mul_right h5
    have h7 := (Nat.pow_lt_pow_iff_right (by norm_num)).1 h6
    omega
  · omega
  · omega
  · omega

/-- Rounding to the nearest integer does not pass an integer bound. -/
lemma roundHalfEven_le (N d B : Nat) (hd : 0 < d) (h : N ≤ B * d) : roundHalfEven N d ≤ B := by
  have hf : N / d ≤ B := Nat.div_le_of_le_mul (by rw [mul_comm]; exact h)
  have hpos : 0 < N % d → N / d + 1 ≤ B := by
    intro hr
    by_contra hcon
    have hB : B ≤ N / d := by omega
    have h1 : B * d ≤ (N / d) * d := Nat.mul_le_mul_right d hB
    have h2 := Nat.div_add_mod N d
    have h3 : d * (N / d) = (N / d) * d := mul_comm _ _
    omega
  simp only [roundHalfEven]
  split_ifs with h1 h2 h3
  · exact hf
  · exact hpos (by omega)
  · exact hf
  · exact hpos (by omega)

/-- The conversion to `int` of a value between 0 and 100 is between 0 and 100. -/
lemma doubleToInt_range (a : ℚ) (h0 : 0 ≤ a) (h1 : a ≤ 100) :
    0 ≤ doubleToInt a ∧ doubleToInt a ≤ 100 := by
  have hnum : 0 ≤ a.num := Rat.num_nonneg.2 h0
  have hden : (0 : ℚ) < a.den := by exact_mod_cast a.den_pos
  have hle : a.num ≤ 100 * (a.den : Int) := by
    have : (a.num : ℚ) / a.den ≤ 100 := by rw [Rat.num_div_den]; exact h1
    rw [div_le_iff₀ hden] at this
    exact_mod_cast this
  have hnat : a.num.natAbs ≤ 100 * a.den := by omega
  have hdiv : a.num.natAbs / a.den ≤ 100 := Nat.div_le_of_le_mul (by rw [mul_comm]; exact hnat)
  simp only [doubleToInt, h0, if_true]
  constructor
  · exact Int.natCast_nonneg _
  · exact_mod_cast hdiv

/-- Rounding to `double` keeps a value between 0 and 100 between 0 and 100. -/
lemma roundDouble_range (x : ℚ) (h0 : 0 ≤ x) (h1 : x ≤ 100) :
    0 ≤ roundDouble x ∧ roundDouble x ≤ 100 := by
  by_cases hx : x = 0
  · simp [roundDouble, hx]
  · have hpos : 0 < x := lt_of_le_of_ne h0 (Ne.symm hx)
    have hnl : ¬ x < 0 := not_lt.2 h0
    have hnum : 0 < x.num := Rat.num_pos.2 hpos
    have hden : (0 : ℚ) < x.den := by exact_mod_cast x.den_pos
    have hle : x.num ≤ 100 * (x.den : Int) := by
      have : (x.num : ℚ) / x.den ≤ 100 := by rw [Rat.num_div_den]; exact h1
      rw [div_le_iff₀ hden] at this
      exact_mod_cast this
    have hn1 : 1 ≤ x.num.natAbs := by omega
    have hnat : x.num.natAbs ≤ 100 * x.den := by omega
    have he : floorLog2 x.num.natAbs x.den ≤ 6 :=
      floorLog2_le _ _ 6 hn1 (by have := x.den_pos; omega)
    have hq : ¬ (0 : Int) ≤ max (floorLog2 x.num.natAbs x.den - 52) (-1074) := by
      rw [not_le, max_lt_iff]; constructor <;> omega
    simp only [roundDouble, hx, hq, hnl, if_false]
    have hm := roundHalfEven_le
      (x.num.natAbs * 2 ^ (-(max (floorLog2 x.num.natAbs x.den - 52) (-1074))).toNat) x.den
      (100 * 2 ^ (-(max (floorLog2 x.num.natAbs x.den - 52) (-1074))).toNat) x.den_pos
      (by
        have := Nat.mul_le_mul_right
          (2 ^ (-(max (floorLog2 x.num.natAbs x.den - 52) (-1074))).toNat) hnat
        calc x.num.natAbs * 2 ^ (-(max (floorLog2 x.num.natAbs x.den - 52) (-1074))).toNat
            ≤ 100 * x.den * 2 ^ (-(max (floorLog2 x.num.natAbs x.den - 52) (-1074))).toNat := this
          _ = 100 * 2 ^ (-(max (floorLog2 x.num.natAbs x.den - 52) (-1074))).toNat * x.den := by
              ring)
    have hpow : (0 : ℚ) < 2 ^ (-(max (floorLog2 x.num.natAbs x.den - 52) (-1074))).toNat := by
      positivity
    constructor
    · positivity
    · rw [div_le_iff₀ hpow]
      exact_mod_cast hm

/-- For a volume in [0, 1] the `int` passed to libvlc is between 0 and 100, so
the conversion of the `double` product is a defined one. -/
lemma volume_command_range (v : ℚ) (h0 : 0 ≤ v) (h1 : v ≤ 1) :
    0 ≤ doubleToInt (doubleMul v 100) ∧ doubleToInt (doubleMul v 100) ≤ 100 := by
  have h := roundDouble_range (v * 100) (by positivity) (by linarith)
  exact doubleToInt_range _ h.1 h.2

/-- The volume call for some `double` volumes: 0.5 gives 50 and 1.0 gives 100;
the `double`s nearest to 0.29 and 0.999 give 28 and 99 (truncation); the
`double` nearest to 0.35 gives 35 (its product with 100.0 rounds to 35.0). -/
lemma volume_command_samples :
    doubleToInt (doubleMul (1 / 2) 100) = 50 ∧
      doubleToInt (doubleMul 1 100) = 100 ∧
      doubleToInt (doubleMul 0 100) = 0 ∧
      doubleToInt (doubleMul (5224175567749775 / 18014398509481984) 100) = 28 ∧
      doubleToInt (doubleMul (8998192055486251 / 9007199254740992) 100) = 99 ∧
      doubleToInt (doubleMul (3152519739159347 / 9007199254740992) 100) = 35 := by
  refine ⟨?_, ?_, ?_, ?_, ?_, ?_⟩ <;> decide!

/-- C10, the code against the claim: for the volume 0.29 (the `double`
5224175567749775 / 2^54, which lies in [0, 1]) `setVolume`, `setMuted( true )`
and `setMuted( false )` end with the libvlc volume call 28, which is not
`v * 100`. -/
theorem unmute_truncates :
    ((0 : ℚ) ≤ 5224175567749775 / 18014398509481984 ∧
        (5224175567749775 / 18014398509481984 : ℚ) ≤ 1) ∧
      roundDouble (5224175567749775 / 18014398509481984) =
        5224175567749775 / 18014398509481984 ∧
      ((((AudioOutput.construct (some 1) (some 2)).setVolume
          (5224175567749775 / 18014398509481984)).1.setMuted true).1.setMuted false).2 =
        [Effect.libvlc_audio_set_volume (some 2) 28] ∧
      ((28 : Int) : ℚ) ≠ 5224175567749775 / 18014398509481984 * 100 := by
  refine ⟨by norm_num, by decide!, ?_, by norm_num⟩
  simp [AudioOutput.setVolume, AudioOutput.setMuted, AudioOutput.construct,
    volume_command_samples.2.2.2.1]

/-- C10 as amended: for every volume `v` in [0, 1] and an unmuted object,
`setVolume( v )` then `setMuted( true )` makes the libvlc volume call with 0,
leaves the object muted and keeps `m_volume = v`; a following
`setMuted( false )` leaves it unmuted with `m_volume = v` and makes the libvlc
volume call with the `double` product `v * 100.0` converted to `int`, a value
from 0 to 100. While
the object is muted, `setVolume( w )` stores `w` and makes no libvlc call, and
the next `setMuted( false )` makes the call for `w`. The last two conjuncts say
the same of any muted object. -/
theorem mute_keeps_volume (self other : AudioOutput) (v w : ℚ) (hv : 0 ≤ v ∧ v ≤ 1)
    (hunmuted : self.muted = false) (hmuted : other.muted = true) :
    (((self.setVolume v).1.setMuted true).2 =
        [Effect.libvlc_audio_set_volume self.vlcPlayer 0]) ∧
      ((self.setVolume v).1.setMuted true).1.muted = true ∧
      ((self.setVolume v).1.setMuted true).1.m_volume = v ∧
      ((((self.setVolume v).1.setMuted true).1.setMuted false).2 =
        [Effect.libvlc_audio_set_volume self.vlcPlayer (doubleToInt (doubleMul v 100))]) ∧
      (0 ≤ doubleToInt (doubleMul v 100) ∧ doubleToInt (doubleMul v 100) ≤ 100) ∧
      (((self.setVolume v).1.setMuted true).1.setMuted false).1.muted = false ∧
      (((self.setVolume v).1.setMuted true).1.setMuted false).1.m_volume = v ∧
      (((self.setVolume v).1.setMuted true).1.setVolume w).2 = [] ∧
      (((self.setVolume v).1.setMuted true).1.setVolume w).1.m_volume = w ∧
      (((self.setVolume v).1.setMuted true).1.setVolume w).1.muted = true ∧
      ((((self.setVolume v).1.setMuted true).1.setVolume w).1.setMuted false).2 =
        [Effect.libvlc_audio_set_volume self.vlcPlayer (doubleToInt (doubleMul w 100))] ∧
      (other.setVolume v).1.m_volume = v ∧
      (other.setVolume v).2 = [] := by
  have hrange := volume_command_range v hv.1 hv.2
  simp [AudioOutput.setVolume, AudioOutput.setMuted, hunmuted, hmuted, hrange]

/-- Witness of C10 as amended: volume 0.5 on the fresh object gives the libvlc
volume calls 0 and then 50, and a volume of 1.0 set while muted gives 100 on
unmuting. -/
theorem mute_keeps_volume_witness :
    ((((AudioOutput.construct (some 1) (some 2)).setVolume (1 / 2)).1.setMuted true).2 =
        [Effect.libvlc_audio_set_volume (some 2) 0]) ∧
      ((((AudioOutput.construct (some 1) (some 2)).setVolume (1 / 2)).1.setMuted
          true).1.setMuted false).2 = [Effect.libvlc_audio_set_volume (some 2) 50] ∧
      (((((AudioOutput.construct (some 1) (some 2)).setVolume (1 / 2)).1.setMuted
          true).1.setVolume 1).1.setMuted false).2 =
        [Effect.libvlc_audio_set_volume (some 2) 100] := by
  have h := mute_keeps_volume (AudioOutput.construct (some 1) (some 2))
    { AudioOutput.construct (some 1) (some 2) with muted := true } (1 / 2) 1
    (by norm_num) rfl rfl
  refine ⟨h.1, ?_, ?_⟩
  · rw [h.2.2.2.1, volume_command_samples.1]
    rfl
  · rw [h.2.2.2.2.2.2.2.2.2.2.1, volume_command_samples.2.1]
    rfl

/-! ## Theorems: setCurrentSource -/

lemma liveMedia_cons (e : Effect) (es : List Effect) :
    liveMedia (e :: es) = mediaDelta e + liveMedia es := by
  simp [liveMedia]

lemma liveMedia_append (l1 l2 : List Effect) :
    liveMedia (l1 ++ l2) = liveMedia l1 + liveMedia l2 := by
  simp [liveMedia]

lemma liveWithin_take (n : Int) (es : List Effect) (h : liveWithin n es = true) (k : Nat) :
    0 ≤ n + liveMedia (es.take k) ∧ n + liveMedia (es.take k) ≤ 1 := by
  induction es generalizing n k with
  | nil => simpa [liveWithin, liveMedia] using h
  | cons e es ih =>
      simp only [liveWithin, Bool.and_eq_true, decide_eq_true_eq] at h
      cases k with
      | zero => simpa [liveMedia] using h.1
      | succ j =>
          have := ih (n + mediaDelta e) h.2 j
          simp only [List.take_succ_cons, liveMedia_cons]
          omega

lemma liveWithin_append (n : Int) (l1 l2 : List Effect) (h1 : liveWithin n l1 = true)
    (h2 : liveWithin (n + liveMedia l1) l2 = true) : liveWithin n (l1 ++ l2) = true := by
  induction l1 generalizing n with
  | nil => simpa [liveMedia] using h2
  | cons e es ih =>
      simp only [liveWithin, Bool.and_eq_true, decide_eq_true_eq] at h1
      simp only [List.cons_append, liveWithin, Bool.and_eq_true, decide_eq_true_eq]
      refine ⟨h1.1, ih _ h1.2 ?_⟩
      rw [liveMedia_cons] at h2
      rwa [add_assoc]

/-- The state `setCurrentSource` leaves behind, as far as the next call's
teardown depends on it. -/
lemma setCurrentSource_post (s : AudioOutput) (c : SourceCall) :
    (s.setCurrentSource c.cwd c.streamPtr c.stream c.newMedia c.duration).1.currentState =
        AudioState.Stopped ∧
      (s.setCurrentSource c.cwd c.streamPtr c.stream c.newMedia c.duration).1.vlcMedia =
        c.newMedia ∧
      (s.setCurrentSource c.cwd c.streamPtr c.stream c.newMedia c.duration).1.currentStream =
        some c.streamPtr ∧
      (s.setCurrentSource c.cwd c.streamPtr c.stream c.newMedia c.duration).1.m_autoDelete =
        s.m_autoDelete ∧
      (s.setCurrentSource c.cwd c.streamPtr c.stream c.newMedia c.duration).1.vlcPlayer =
        s.vlcPlayer ∧
      (s.setCurrentSource c.cwd c.streamPtr c.stream c.newMedia c.duration).1.vlcInstance =
        s.vlcInstance := by
  simp only [AudioOutput.setCurrentSource, AudioOutput.setState]
  split_ifs <;> simp

/-- The calls `setCurrentSource` makes: the Loading notification, the teardown
of the previous binding, the creation of the new media handle, and then calls
that neither create nor release a media handle. -/
lemma setCurrentSource_effects (s : AudioOutput) (c : SourceCall) :
    ∃ rest : List Effect,
      (s.setCurrentSource c.cwd c.streamPtr c.stream c.newMedia c.duration).2 =
        Effect.stateChanged AudioState.Loading s.currentState ::
          (teardown s.vlcPlayer s.vlcMedia s.m_autoDelete s.currentStream ++
            Effect.libvlc_media_new_location s.vlcInstance (locationToken c.cwd c.stream)
              c.newMedia :: rest) ∧
      ∀ e ∈ rest, mediaDelta e = 0 := by
  simp only [AudioOutput.setCurrentSource, AudioOutput.setState, teardown]
  split_ifs <;> simp [mediaDelta]

lemma liveMedia_of_neutral (rest : List Effect) (h : ∀ e ∈ rest, mediaDelta e = 0) :
    liveMedia rest = 0 := by
  induction rest with
  | nil => simp [liveMedia]
  | cons e es ih =>
      rw [liveMedia_cons, h e (by simp), ih (fun x hx => h x (by simp [hx]))]
      simp

lemma liveWithin_of_neutral (n : Int) (rest : List Effect) (h : ∀ e ∈ rest, mediaDelta e = 0)
    (hn : 0 ≤ n ∧ n ≤ 1) : liveWithin n rest = true := by
  induction rest with
  | nil => simpa [liveWithin] using hn
  | cons e es ih =>
      simp only [liveWithin, Bool.and_eq_true, decide_eq_true_eq]
      refine ⟨hn, ?_⟩
      rw [h e (by simp), add_zero]
      exact ih (fun x hx => h x (by simp [hx]))

/-- The number of live media handles a state stands for. -/
lemma setCurrentSource_live (s : AudioOutput) (c : SourceCall) :
    liveWithin (if s.vlcMedia = none then 0 else 1)
        (s.setCurrentSource c.cwd c.streamPtr c.stream c.newMedia c.duration).2 = true ∧
      (if s.vlcMedia = none then 0 else 1) +
          liveMedia (s.setCurrentSource c.cwd c.streamPtr c.stream c.newMedia c.duration).2 =
        (if c.newMedia = none then 0 else 1) := by
  obtain ⟨rest, hes, hrest⟩ := setCurrentSource_effects s c
  rw [hes]
  have h0 := liveMedia_of_neutral rest hrest
  have hw0 := liveWithin_of_neutral 0 rest hrest (by norm_num)
  have hw1 := liveWithin_of_neutral 1 rest hrest (by norm_num)
  cases hm : s.vlcMedia <;> cases hc : c.newMedia <;>
    by_cases hd : s.m_autoDelete = true ∧ s.currentStream ≠ none <;>
    simp [teardown, liveWithin, liveMedia_cons, liveMedia_append, mediaDelta, hd, h0, hw0, hw1]

lemma runAudio_sources_live (s : AudioOutput) (calls : List SourceCall) :
    liveWithin (if s.vlcMedia = none then 0 else 1)
      (runAudio s (calls.map AudioOp.setCurrentSource)).2.flatten = true := by
  induction calls generalizing s with
  | nil => cases hm : s.vlcMedia <;> simp [runAudio, liveWithin]
  | cons c cs ih =>
      obtain ⟨h1, h2⟩ := setCurrentSource_live s c
      have h3 := ih (s.setCurrentSource c.cwd c.streamPtr c.stream c.newMedia c.duration).1
      rw [(setCurrentSource_post s c).2.1] at h3
      simp only [List.map_cons, runAudio, AudioOp.apply, List.flatten_cons]
      exact liveWithin_append _ _ _ h1 (by rw [h2]; exact h3)

lemma runAudio_sources_teardown (s : AudioOutput) (calls : List SourceCall) (i : Nat)
    (c0 c1 : SourceCall) (h0 : calls[i]? = some c0) (h1 : calls[i + 1]? = some c1) :
    ∃ rest : List Effect,
      (runAudio s (calls.map AudioOp.setCurrentSource)).2.getD (i + 1) [] =
        Effect.stateChanged AudioState.Loading AudioState.Stopped ::
          (teardown s.vlcPlayer c0.newMedia s.m_autoDelete (some c0.streamPtr) ++
            Effect.libvlc_media_new_location s.vlcInstance (locationToken c1.cwd c1.stream)
              c1.newMedia :: rest) ∧
      ∀ e ∈ rest, mediaDelta e = 0 := by
  induction calls generalizing s i with
  | nil => simp at h0
  | cons c cs ih =>
      obtain ⟨p1, p2, p3, p4, p5, p6⟩ := setCurrentSource_post s c
      cases i with
      | zero =>
          cases cs with
          | nil => simp at h1
          | cons d ds =>
              simp only [List.getElem?_cons_zero, Option.some.injEq, zero_add,
                List.getElem?_cons_succ] at h0 h1
              subst h0 h1
              obtain ⟨rest, hes, hrest⟩ := setCurrentSource_effects
                (s.setCurrentSource c.cwd c.streamPtr c.stream c.newMedia c.duration).1 d
              rw [p1, p2, p3, p4, p5, p6] at hes
              exact ⟨rest, by simpa [runAudio, AudioOp.apply] using hes, hrest⟩
      | succ j =>
          simp only [List.getElem?_cons_succ] at h0 h1
          obtain ⟨rest, hes, hrest⟩ := ih
            (s.setCurrentSource c.cwd c.streamPtr c.stream c.newMedia c.duration).1 j h0 h1
          rw [p4, p5, p6] at hes
          exact ⟨rest, by simpa [runAudio, AudioOp.apply] using hes, hrest⟩

/-- C11: in the trace of any sequence of `setCurrentSource` calls on a freshly
constructed object (auto-delete on or off), the number of live media handles is
0 or 1 at every point, and every call after the first starts with the Loading
notification, then stops the player and releases the media handle the previous
call created (when it created one), then deletes the previous stream when
auto-delete is on, and only then creates the new media handle; nothing after
that creates or releases a media handle. -/
theorem one_live_media_handle (inst player : Handle) (ad : Bool) (calls : List SourceCall) :
    (∀ k : Nat,
      0 ≤ liveMedia (((runAudio ((AudioOutput.construct inst player).setAutoDelete ad)
          (calls.map AudioOp.setCurrentSource)).2.flatten).take k) ∧
        liveMedia (((runAudio ((AudioOutput.construct inst player).setAutoDelete ad)
          (calls.map AudioOp.setCurrentSource)).2.flatten).take k) ≤ 1) ∧
    (∀ (i : Nat) (c0 c1 : SourceCall), calls[i]? = some c0 → calls[i + 1]? = some c1 →
      ∃ rest : List Effect,
        (runAudio ((AudioOutput.construct inst player).setAutoDelete ad)
            (calls.map AudioOp.setCurrentSource)).2.getD (i + 1) [] =
          Effect.stateChanged AudioState.Loading AudioState.Stopped ::
            ((if c0.newMedia ≠ none then
                [Effect.libvlc_media_player_stop player, Effect.libvlc_media_release c0.newMedia]
              else []) ++
              (if ad = true then [Effect.deleteStream (some c0.streamPtr)] else []) ++
              Effect.libvlc_media_new_location inst (locationToken c1.cwd c1.stream)
                c1.newMedia :: rest) ∧
        ∀ e ∈ rest, mediaDelta e = 0) := by
  constructor
  · intro k
    have h := liveWithin_take 0 _
      (runAudio_sources_live ((AudioOutput.construct inst player).setAutoDelete ad) calls) k
    simpa using h
  · intro i c0 c1 h0 h1
    obtain ⟨rest, hes, hrest⟩ := runAudio_sources_teardown
      ((AudioOutput.construct inst player).setAutoDelete ad) calls i c0 c1 h0 h1
    refine ⟨rest, ?_, hrest⟩
    rw [hes]
    simp [teardown, AudioOutput.setAutoDelete, AudioOutput.construct]

/-- Witness of C11: a relative Url source at address 100 (media handle 7) and
then a byte-device source at address 200 (media handle 8), auto-delete on. The
second call stops the player, releases handle 7, deletes stream 100 and then
creates handle 8. -/
theorem one_live_media_handle_witness :
    liveMedia (((runAudio ((AudioOutput.construct (some 1) (some 2)).setAutoDelete true)
        ([⟨"/home/user", 100, ⟨MediaType.Url, ⟨"", true, "song.flac"⟩, false, false, false, 0, 0⟩,
            some 7, 180000⟩,
          ⟨"/home/user", 200, MediaStream.ofIODevice, some 8, 0⟩].map
          AudioOp.setCurrentSource)).2.flatten).take 11) ≤ 1 ∧
      ∃ rest : List Effect,
        (runAudio ((AudioOutput.construct (some 1) (some 2)).setAutoDelete true)
            ([⟨"/home/user", 100, ⟨MediaType.Url, ⟨"", true, "song.flac"⟩, false, false, false,
                0, 0⟩, some 7, 180000⟩,
              ⟨"/home/user", 200, MediaStream.ofIODevice, some 8, 0⟩].map
              AudioOp.setCurrentSource)).2.getD 1 [] =
          [Effect.stateChanged AudioState.Loading AudioState.Stopped,
            Effect.libvlc_media_player_stop (some 2), Effect.libvlc_media_release (some 7),
            Effect.deleteStream (some 100),
            Effect.libvlc_media_new_location (some 1) "imem://" (some 8)] ++ rest := by
  have h := one_live_media_handle (some 1) (some 2) true
    [⟨"/home/user", 100, ⟨MediaType.Url, ⟨"", true, "song.flac"⟩, false, false, false, 0, 0⟩,
        some 7, 180000⟩,
      ⟨"/home/user", 200, MediaStream.ofIODevice, some 8, 0⟩]
  refine ⟨(h.1 11).2, ?_⟩
  obtain ⟨rest, hes, _⟩ := h.2 0 _ _ rfl rfl
  exact ⟨rest, by rw [hes]; simp [locationToken, MediaStream.ofIODevice]⟩

/-- C12: after `setCurrentSource( stream )`, from any state and for any stream,
the state is Stopped, the current time 0, `seekable` true, `m_aboutToFinish`
and `m_justSeeked` false, `currentStream` the given pointer, and `m_totalTime`
0 unless the stream is a Url, when it is the duration libvlc reports; the
`stateChanged` signals emitted are exactly (Loading, previous state) and then
(Stopped, Loading). -/
theorem setCurrentSource_result (self : AudioOutput) (cwd : String) (streamPtr : Nat)
    (stream : MediaStream) (newMedia : Handle) (duration : Int) :
    (self.setCurrentSource cwd streamPtr stream newMedia duration).1.currentState =
        AudioState.Stopped ∧
      (self.setCurrentSource cwd streamPtr stream newMedia duration).1.m_currentTime = 0 ∧
      (self.setCurrentSource cwd streamPtr stream newMedia duration).1.seekable = true ∧
      (self.setCurrentSource cwd streamPtr stream newMedia duration).1.m_aboutToFinish = false ∧
      (self.setCurrentSource cwd streamPtr stream newMedia duration).1.m_justSeeked = false ∧
      (self.setCurrentSource cwd streamPtr stream newMedia duration).1.currentStream =
        some streamPtr ∧
      (self.setCurrentSource cwd streamPtr stream newMedia duration).1.m_totalTime =
        (if stream.m_type = MediaType.Url then duration else 0) ∧
      (self.setCurrentSource cwd streamPtr stream newMedia duration).2.filter
          Effect.isStateChanged =
        [Effect.stateChanged AudioState.Loading self.currentState,
          Effect.stateChanged AudioState.Stopped AudioState.Loading] := by
  simp only [AudioOutput.setCurrentSource, AudioOutput.setState]
  split_ifs <;> simp_all [Effect.isStateChanged]

/-- C13: for a Url stream, when the scheme of the URL is empty and the URL is
relative the location is `file:///`, the current directory, `/` and the encoded
URL; when the URL has a scheme the location is the encoded URL as it is; and
this location, and no other, is what `libvlc_media_new_location` is called
with. -/
theorem locationToken_of_url (self : AudioOutput) (cwd : String) (streamPtr : Nat)
    (stream : MediaStream) (newMedia : Handle) (duration : Int)
    (hkind : stream.m_type = MediaType.Url) :
    (stream.m_url.scheme.isEmpty = true → stream.m_url.isRelative = true →
        locationToken cwd stream = "file:///" ++ cwd ++ "/" ++ stream.m_url.toEncoded) ∧
      (stream.m_url.scheme.isEmpty = false →
        locationToken cwd stream = stream.m_url.toEncoded) ∧
      Effect.libvlc_media_new_location self.vlcInstance (locationToken cwd stream) newMedia ∈
        (self.setCurrentSource cwd streamPtr stream newMedia duration).2 ∧
      (∀ (inst : Handle) (url : String) (result : Handle),
        Effect.libvlc_media_new_location inst url result ∈
            (self.setCurrentSource cwd streamPtr stream newMedia duration).2 →
          url = locationToken cwd stream) := by
  refine ⟨?_, ?_, ?_, ?_⟩
  · intro h1 h2
    simp [locationToken, hkind, h1, h2, String.append_assoc]
  · intro h1
    simp [locationToken, hkind, h1]
  · obtain ⟨rest, hes, _⟩ := setCurrentSource_effects self ⟨cwd, streamPtr, stream, newMedia, duration⟩
    simp only at hes
    rw [hes]
    simp
  · intro inst url result
    simp only [AudioOutput.setCurrentSource, AudioOutput.setState, hkind]
    split_ifs <;> simp <;> tauto

/-- Witness of C13: the relative URL `song.flac` without scheme, played from
the directory `/home/user`. -/
theorem locationToken_of_url_witness :
    locationToken "/home/user"
        ⟨MediaType.Url, ⟨"", true, "song.flac"⟩, false, false, false, 0, 0⟩ =
      "file:///" ++ "/home/user" ++ "/" ++ "song.flac" ∧
    locationToken "/home/user"
        ⟨MediaType.Url, ⟨"http", false, "http://host/song.flac"⟩, false, false, false, 0, 0⟩ =
      "http://host/song.flac" :=
  ⟨(locationToken_of_url (AudioOutput.construct (some 1) (some 2)) "/home/user" 100
      ⟨MediaType.Url, ⟨"", true, "song.flac"⟩, false, false, false, 0, 0⟩ (some 7) 0 rfl).1
      rfl rfl,
    (locationToken_of_url (AudioOutput.construct (some 1) (some 2)) "/home/user" 100
      ⟨MediaType.Url, ⟨"http", false, "http://host/song.flac"⟩, false, false, false, 0, 0⟩
      (some 7) 0 rfl).2.1 (by decide)⟩

/-- C14: with a stored total time of 0, `setCurrentTime( t )` stores the
collaborator's total `F`, sets the current time to `t` and emits the tick once,
first; when `F > 0` and `m_aboutToFinish` was false, the flag becomes true with
one about-to-finish signal if `F - t <= 2000`, and stays false with none
otherwise. -/
theorem setCurrentTime_fallback (self : AudioOutput) (F t : Int)
    (htotal : self.m_totalTime = 0) :
    (self.setCurrentTime F t).1.m_totalTime = F ∧
      (self.setCurrentTime F t).1.m_currentTime = t ∧
      ((self.setCurrentTime F t).2 = [Effect.tick t] ∨
        (self.setCurrentTime F t).2 = [Effect.tick t, Effect.aboutToFinish]) ∧
      (0 < F → self.m_aboutToFinish = false →
        (F - t ≤ 2000 →
            (self.setCurrentTime F t).1.m_aboutToFinish = true ∧
              (self.setCurrentTime F t).2 = [Effect.tick t, Effect.aboutToFinish]) ∧
          (2000 < F - t →
            (self.setCurrentTime F t).1.m_aboutToFinish = false ∧
              (self.setCurrentTime F t).2 = [Effect.tick t])) := by
  refine ⟨?_, (setCurrentTime_basic self F t).1, (setCurrentTime_basic self F t).2.2.2, ?_⟩
  · simp only [AudioOutput.setCurrentTime, htotal]
    split_ifs <;> simp
  · intro hF hflag
    have h1 : ¬ F ≤ 0 := by omega
    constructor
    · intro hle
      have h2 : ¬ t < F - 2000 := by omega
      have h3 : t ≥ F - 2000 := by omega
      simp [AudioOutput.setCurrentTime, ABOUT_TO_FINISH_TIME, htotal, h1, h2, h3, hflag, hF]
    · intro hgt
      have h2 : t < F - 2000 := by omega
      have h3 : ¬ t ≥ F - 2000 := by omega
      have h4 : ¬ F ≤ t + 2000 := by omega
      simp [AudioOutput.setCurrentTime, ABOUT_TO_FINISH_TIME, htotal, h1, h2, h3, h4]

/-- Witness of C14: total time unknown, fallback 180000 ms, time 178500 ms: the
flag goes from false to true with one about-to-finish signal. -/
theorem setCurrentTime_fallback_witness :
    (AudioOutput.construct (some 1) (some 2)).m_aboutToFinish = false ∧
      ((AudioOutput.construct (some 1) (some 2)).setCurrentTime 180000 178500).1.m_aboutToFinish
        = true ∧
      ((AudioOutput.construct (some 1) (some 2)).setCurrentTime 180000 178500).2 =
        [Effect.tick 178500, Effect.aboutToFinish] ∧
      ((AudioOutput.construct (some 1) (some 2)).setCurrentTime 180000 178500).1.m_totalTime
        = 180000 :=
  ⟨rfl,
    (((setCurrentTime_fallback (AudioOutput.construct (some 1) (some 2)) 180000 178500 rfl).2.2.2
      (by norm_num) rfl).1 (by norm_num)).1,
    (((setCurrentTime_fallback (AudioOutput.construct (some 1) (some 2)) 180000 178500 rfl).2.2.2
      (by norm_num) rfl).1 (by norm_num)).2,
    (setCurrentTime_fallback (AudioOutput.construct (some 1) (some 2)) 180000 178500 rfl).1⟩

/-! ## Theorems: playback state, shutdown, seekable -/

/-- C15, the code against the claim: from state Error, `play()` alone leaves
the object Playing, `pause()` Paused, `stop()` Stopped and the end-reached
event Stopped. -/
theorem error_left_by_play :
    (runAudio { AudioOutput.construct (some 1) (some 2) with currentState := AudioState.Error }
        [AudioOp.play false]).1.currentState = AudioState.Playing ∧
      (runAudio { AudioOutput.construct (some 1) (some 2) with currentState := AudioState.Error }
        [AudioOp.pause]).1.currentState = AudioState.Paused ∧
      (runAudio { AudioOutput.construct (some 1) (some 2) with currentState := AudioState.Error }
        [AudioOp.stop]).1.currentState = AudioState.Stopped ∧
      (runAudio { AudioOutput.construct (some 1) (some 2) with currentState := AudioState.Error }
        [AudioOp.vlcEvent 0 ⟨EventType.MediaPlayerEndReached, 0, 0⟩]).1.currentState =
        AudioState.Stopped := by
  refine ⟨rfl, rfl, rfl, rfl⟩

lemma setTotalTime_currentState (s : AudioOutput) (t : Int) :
    (s.setTotalTime t).1.currentState = s.currentState := by
  simp only [AudioOutput.setTotalTime]
  split_ifs <;> rfl

lemma vlcEventCallback_error (s : AudioOutput) (F : Int) (event : VlcEvent)
    (herr : s.currentState = AudioState.Error)
    (hev : event.type ≠ EventType.MediaPlayerEndReached) :
    (s.vlcEventCallback F event).1.currentState = AudioState.Error := by
  cases hty : event.type <;>
    simp_all [AudioOutput.vlcEventCallback, AudioOutput.setState, setTotalTime_currentState,
      (setCurrentTime_basic s F event.new_time).2.1]

lemma apply_keeps_error (s : AudioOutput) (op : AudioOp)
    (herr : s.currentState = AudioState.Error) (hop : op.leavesError = false) :
    (op.apply s).1.currentState = AudioState.Error := by
  cases op with
  | setCurrentSource c => simp [AudioOp.leavesError] at hop
  | play isPlaying => simp [AudioOp.leavesError] at hop
  | pause => simp [AudioOp.leavesError] at hop
  | stop => simp [AudioOp.leavesError] at hop
  | seek F ms => simp [AudioOp.apply, AudioOutput.seek, herr]
  | setCurrentTime F t => simp [AudioOp.apply, (setCurrentTime_basic s F t).2.1, herr]
  | setTotalTime t => simp [AudioOp.apply, setTotalTime_currentState, herr]
  | setVolume v =>
      simp only [AudioOp.apply, AudioOutput.setVolume]
      split_ifs <;> exact herr
  | setMuted m =>
      simp only [AudioOp.apply, AudioOutput.setMuted]
      split_ifs <;> exact herr
  | vlcEvent F event =>
      simp only [AudioOp.leavesError, decide_eq_false_iff_not] at hop
      exact vlcEventCallback_error s F event herr hop

/-- C15 as amended: from state Error, any sequence of `seek`, `setVolume`,
`setMuted`, `setCurrentTime`, `setTotalTime` and libvlc events other than
end-reached (time-changed, duration-changed and encountered-error among them)
leaves the state Error; `play()`, `pause()`, `stop()` and the end-reached
event set Playing, Paused, Stopped and Stopped also from Error. -/
theorem error_kept_without_commands (self : AudioOutput) (ops : List AudioOp)
    (herr : self.currentState = AudioState.Error)
    (hops : ∀ op ∈ ops, op.leavesError = false) :
    (runAudio self ops).1.currentState = AudioState.Error ∧
      (∀ isPlaying : Bool, (self.play isPlaying).1.currentState = AudioState.Playing) ∧
      self.pause.1.currentState = AudioState.Paused ∧
      self.stop.1.currentState = AudioState.Stopped ∧
      (∀ (F : Int) (event : VlcEvent), event.type = EventType.MediaPlayerEndReached →
        (self.vlcEventCallback F event).1.currentState = AudioState.Stopped) := by
  refine ⟨?_, fun _ => rfl, rfl, rfl, ?_⟩
  · induction ops generalizing self with
    | nil => simpa [runAudio] using herr
    | cons op ops ih =>
        have h1 := apply_keeps_error self op herr (hops op (by simp))
        have h2 := ih (op.apply self).1 h1 (fun x hx => hops x (by simp [hx]))
        simpa [runAudio] using h2
  · intro F event hev
    simp [AudioOutput.vlcEventCallback, hev, AudioOutput.setState]

/-- Witness of C15 as amended: in state Error a seek, a volume change, a
time-changed event and an encountered-error event leave the state Error. -/
theorem error_kept_without_commands_witness :
    (runAudio { AudioOutput.construct (some 1) (some 2) with currentState := AudioState.Error }
        [AudioOp.seek 0 5000, AudioOp.setVolume (1 / 2), AudioOp.setMuted true,
          AudioOp.vlcEvent 180000 ⟨EventType.MediaPlayerTimeChanged, 1000, 0⟩,
          AudioOp.vlcEvent 0 ⟨EventType.MediaDurationChanged, 0, 180000⟩,
          AudioOp.vlcEvent 0 ⟨EventType.MediaPlayerEncounteredError, 0, 0⟩]).1.currentState =
      AudioState.Error :=
  (error_kept_without_commands
    { AudioOutput.construct (some 1) (some 2) with currentState := AudioState.Error }
    _ rfl (by decide)).1

/-- C16, the code against the claim: with player 2, media 3 and instance 1 all
live, the destructor releases the player before the media handle, so its calls
are not in the order stop, media, player, instance. -/
theorem destroy_order_differs :
    (AudioOutput.destroy { AudioOutput.construct (some 1) (some 2) with vlcMedia := some 3 }).2 =
        [Effect.libvlc_media_player_stop (some 2), Effect.libvlc_media_player_release (some 2),
          Effect.libvlc_media_release (some 3), Effect.libvlc_release (some 1)] ∧
      (AudioOutput.destroy { AudioOutput.construct (some 1) (some 2) with vlcMedia := some 3 }).2 ≠
        [Effect.libvlc_media_player_stop (some 2), Effect.libvlc_media_release (some 3),
          Effect.libvlc_media_player_release (some 2), Effect.libvlc_release (some 1)] := by
  constructor
  · rfl
  · simp [AudioOutput.destroy, AudioOutput.construct]

/-- C16 as amended: with player, media and instance handles all live the
destructor stops playback, releases the player, releases the media handle and
releases the instance, in this order; in every state the stop and the player
release are skipped when the player handle is null, the media release when the
media handle is null, and the instance release when the instance handle is
null. -/
theorem destroy_order (self : AudioOutput) :
    (self.vlcPlayer ≠ none → self.vlcMedia ≠ none → self.vlcInstance ≠ none →
        self.destroy.2 =
          [Effect.libvlc_media_player_stop self.vlcPlayer,
            Effect.libvlc_media_player_release self.vlcPlayer,
            Effect.libvlc_media_release self.vlcMedia,
            Effect.libvlc_release self.vlcInstance]) ∧
      self.destroy.2 =
        (if self.vlcPlayer ≠ none then
            [Effect.libvlc_media_player_stop self.vlcPlayer,
              Effect.libvlc_media_player_release self.vlcPlayer]
          else []) ++
        (if self.vlcMedia ≠ none then [Effect.libvlc_media_release self.vlcMedia] else []) ++
        (if self.vlcInstance ≠ none then [Effect.libvlc_release self.vlcInstance] else []) := by
  constructor
  · intro h1 h2 h3
    simp [AudioOutput.destroy, h1, h2, h3]
  · simp only [AudioOutput.destroy]
    split_ifs <;> simp_all

/-- Witness of C16 as amended: all three handles live, and the object with no
media bound. -/
theorem destroy_order_witness :
    (AudioOutput.destroy { AudioOutput.construct (some 1) (some 2) with vlcMedia := some 3 }).2 =
        [Effect.libvlc_media_player_stop (some 2), Effect.libvlc_media_player_release (some 2),
          Effect.libvlc_media_release (some 3), Effect.libvlc_release (some 1)] ∧
      (AudioOutput.construct (some 1) (some 2)).destroy.2 =
        [Effect.libvlc_media_player_stop (some 2), Effect.libvlc_media_player_release (some 2),
          Effect.libvlc_release (some 1)] := by
  refine ⟨(destroy_order _).1 (by simp [AudioOutput.construct]) (by simp)
    (by simp [AudioOutput.construct]), ?_⟩
  rw [(destroy_order (AudioOutput.construct (some 1) (some 2))).2]
  simp [AudioOutput.construct]

/-- C17, the code against the claim: the freshly constructed object is seekable
with total time 0, and after `setTotalTime( 5 )` and `setTotalTime( 0 )` the
object is not seekable with total time 5. -/
theorem seekable_not_derived :
    ((AudioOutput.construct (some 1) (some 2)).isSeekable = true ∧
        (AudioOutput.construct (some 1) (some 2)).m_totalTime = 0) ∧
      ((runAudio (AudioOutput.construct (some 1) (some 2))
          [AudioOp.setTotalTime 5, AudioOp.setTotalTime 0]).1.isSeekable = false ∧
        (runAudio (AudioOutput.construct (some 1) (some 2))
          [AudioOp.setTotalTime 5, AudioOp.setTotalTime 0]).1.m_totalTime = 5) := by
  refine ⟨⟨rfl, rfl⟩, ?_, ?_⟩ <;>
    simp [runAudio, AudioOp.apply, AudioOutput.setTotalTime, AudioOutput.construct,
      AudioOutput.isSeekable]

lemma setCurrentTime_seekable (s : AudioOutput) (F t : Int) (h : s.seekable = true) :
    (s.setCurrentTime F t).1.seekable = true := by
  simp only [AudioOutput.setCurrentTime]
  split_ifs <;> simp [h]

lemma apply_keeps_seekable (s : AudioOutput) (op : AudioOp) (h : s.seekable = true)
    (hop : op.reportsNoDuration = false) : (op.apply s).1.seekable = true := by
  cases op with
  | setCurrentSource c =>
      simp only [AudioOp.apply, AudioOutput.setCurrentSource, AudioOutput.setState]
      split_ifs <;> rfl
  | play isPlaying => simpa [AudioOp.apply, AudioOutput.play, AudioOutput.setState] using h
  | pause => simpa [AudioOp.apply, AudioOutput.pause, AudioOutput.setState] using h
  | stop => simpa [AudioOp.apply, AudioOutput.stop, AudioOutput.setState] using h
  | seek F ms =>
      simp only [AudioOp.apply, AudioOutput.seek]
      split <;> first | exact setCurrentTime_seekable _ F ms h | exact h
  | setCurrentTime F t => exact setCurrentTime_seekable s F t h
  | setTotalTime t =>
      simp only [AudioOp.reportsNoDuration, decide_eq_false_iff_not] at hop
      simp [AudioOp.apply, AudioOutput.setTotalTime, hop]
  | setVolume v =>
      simp only [AudioOp.apply, AudioOutput.setVolume]
      split_ifs <;> exact h
  | setMuted m =>
      simp only [AudioOp.apply, AudioOutput.setMuted]
      split_ifs <;> exact h
  | vlcEvent F event =>
      simp only [AudioOp.reportsNoDuration, decide_eq_false_iff_not] at hop
      simp only [AudioOp.apply, AudioOutput.vlcEventCallback]
      split
      · exact setCurrentTime_seekable s F _ h
      · next hty =>
          have hpos : ¬ event.new_duration ≤ 0 := fun hle => hop ⟨hty, hle⟩
          simp [AudioOutput.setTotalTime, hpos]
      · simpa [AudioOutput.setState] using h
      · simp only [AudioOutput.setState, AudioOutput.stop]
        split_ifs <;> exact h
      · exact h

/-- C17 as amended: `seekable` is a stored flag that follows the last total
time reported, not the stored total time. In every state reached from
construction by calls none of which reports a total time `<= 0`
(`setCurrentSource`, `play`, `pause`, `stop`, `seek`, `setCurrentTime`,
`setTotalTime( t )` with `t > 0`, volume, mute, events), `isSeekable()` is
true; and right after `setTotalTime( t )`, from any state, `isSeekable()` is
`t > 0`. -/
theorem seekable_follows_reports (inst player : Handle) (ops : List AudioOp)
    (self : AudioOutput) (t : Int)
    (hops : ∀ op ∈ ops, op.reportsNoDuration = false) :
    (runAudio (AudioOutput.construct inst player) ops).1.isSeekable = true ∧
      (self.setTotalTime t).1.isSeekable = decide (0 < t) := by
  constructor
  · have key : ∀ (s : AudioOutput) (l : List AudioOp), s.seekable = true →
        (∀ op ∈ l, op.reportsNoDuration = false) → (runAudio s l).1.seekable = true := by
      intro s l
      induction l generalizing s with
      | nil => intro hs _; simpa [runAudio] using hs
      | cons op l ih =>
          intro hs hl
          have h1 := apply_keeps_seekable s op hs (hl op (by simp))
          have h2 := ih (op.apply s).1 h1 (fun x hx => hl x (by simp [hx]))
          simpa [runAudio] using h2
    exact key _ ops rfl hops
  · by_cases h : t ≤ 0
    · have h' : ¬ 0 < t := by omega
      simp [AudioOutput.setTotalTime, AudioOutput.isSeekable, h, h']
    · have h' : 0 < t := by omega
      simp [AudioOutput.setTotalTime, AudioOutput.isSeekable, h, h']

/-- Witness of C17 as amended: a source is set, played, sought and given a
total time of 180000 ms; the object is seekable throughout, also while the
total time is 0. -/
theorem seekable_follows_reports_witness :
    (runAudio (AudioOutput.construct (some 1) (some 2))
        [AudioOp.setCurrentSource ⟨"/home/user", 100, MediaStream.ofIODevice, some 7, 0⟩,
          AudioOp.play false, AudioOp.seek 0 5000,
          AudioOp.setTotalTime 180000]).1.isSeekable = true ∧
      ((AudioOutput.construct (some 1) (some 2)).setTotalTime 0).1.isSeekable = false := by
  have h := seekable_follows_reports (some 1) (some 2)
    [AudioOp.setCurrentSource ⟨"/home/user", 100, MediaStream.ofIODevice, some 7, 0⟩,
      AudioOp.play false, AudioOp.seek 0 5000, AudioOp.setTotalTime 180000]
    (AudioOutput.construct (some 1) (some 2)) 0 (by decide)
  exact ⟨h.1, by simpa using h.2⟩

/-- C18, the code against the claim: `pause()` on a Paused object emits the
signal `stateChanged( Paused, Paused )`. -/
theorem pause_paused_notifies :
    (AudioOutput.pause
        { AudioOutput.construct (some 1) (some 2) with currentState := AudioState.Paused }).2 =
      [Effect.libvlc_media_player_set_pause (some 2) 1,
        Effect.stateChanged AudioState.Paused AudioState.Paused] ∧
    ((AudioOutput.pause
        { AudioOutput.construct (some 1) (some 2) with currentState := AudioState.Paused }).2.filter
      Effect.isStateChanged).length = 1 := by
  constructor <;> rfl

/-- C18 as amended: `pause()` on a Paused object leaves every data member,
the playback state included, as it was; it makes the libvlc pause call and
emits one `stateChanged( Paused, Paused )` signal. -/
theorem pause_paused (self : AudioOutput) (hpaused : self.currentState = AudioState.Paused) :
    self.pause.1 = self ∧
      self.pause.2 =
        [Effect.libvlc_media_player_set_pause self.vlcPlayer 1,
          Effect.stateChanged AudioState.Paused AudioState.Paused] := by
  cases self
  simp_all [AudioOutput.pause, AudioOutput.setState]

/-- Witness of C18 as amended: a Paused object with a known total time. -/
theorem pause_paused_witness :
    (AudioOutput.pause { AudioOutput.construct (some 1) (some 2) with
        currentState := AudioState.Paused, m_totalTime := 180000 }).1 =
      { AudioOutput.construct (some 1) (some 2) with
        currentState := AudioState.Paused, m_totalTime := 180000 } :=
  (pause_paused _ rfl).1

/-- C19, the code at the failing input: when `libvlc_new` returns null the
constructor goes on to call `libvlc_media_player_new`, the event manager and
the eighteen `libvlc_event_attach` on null handles, and afterwards `play`,
`pause`, `stop`, `setVolume`, `setMuted` and `setCurrentSource` make their
libvlc calls on the null player and instance; only the destructor makes none. -/
theorem null_instance_calls :
    (AudioOutput.create none none).2.take 4 =
        [Effect.libvlc_new none, Effect.libvlc_media_player_new none none,
          Effect.libvlc_media_player_event_manager none,
          Effect.libvlc_event_attach none EventType.MediaPlayerMediaChanged] ∧
      (AudioOutput.create none none).2.length = 21 ∧
      ((AudioOutput.create none none).1.play false).2 =
        [Effect.libvlc_media_player_is_playing none, Effect.libvlc_media_player_play none,
          Effect.stateChanged AudioState.Playing AudioState.Stopped] ∧
      (AudioOutput.create none none).1.pause.2 =
        [Effect.libvlc_media_player_set_pause none 1,
          Effect.stateChanged AudioState.Paused AudioState.Stopped] ∧
      (AudioOutput.create none none).1.stop.2 =
        [Effect.libvlc_media_player_stop none,
          Effect.stateChanged AudioState.Stopped AudioState.Stopped] ∧
      ((AudioOutput.create none none).1.setMuted true).2 =
        [Effect.libvlc_audio_set_volume none 0] ∧
      ((AudioOutput.create none none).1.setVolume 1).2 =
        [Effect.libvlc_audio_set_volume none 100] ∧
      ((AudioOutput.create none none).1.setCurrentSource "/home/user" 100
          MediaStream.ofIODevice none 0).2.take 4 =
        [Effect.stateChanged AudioState.Loading AudioState.Stopped,
          Effect.libvlc_media_new_location none "imem://" none,
          Effect.libvlc_media_event_manager none,
          Effect.libvlc_event_attach none EventType.MediaDurationChanged] ∧
      (AudioOutput.create none none).1.destroy.2 = [] := by
  refine ⟨rfl, rfl, rfl, rfl, rfl, rfl, ?_, rfl, rfl⟩
  simp [AudioOutput.setVolume, AudioOutput.create, AudioOutput.construct,
    volume_command_samples.2.1]

end Tomahawk
